import Mathlib

/-!
A shallow embedding of the validation engine of the SPU-Tool repository
(`src/validator.py`, class `CDDValidator`), together with theorems checking
the natural-language specification of that engine against the code.

Machine numbers: every float the validator manipulates originates either in a
spreadsheet cell or in parsing a decimal string, and every value exercised by
a verified statement is an exact decimal; floats are therefore modelled as
exact decimals `num / 10 ^ exp`, on which Python's `float`/`int`/`str`
conversions coincide with exact decimal arithmetic.
-/

namespace SPUTool

/-- An exact decimal number, of value `num / 10 ^ exp`. -/
structure Dec where
  num : Int
  exp : Nat
deriving DecidableEq

/-- The Python exceptions the embedded code can raise. -/
inductive PyExn where
  | valueError (msg : String)
  | overflowError (msg : String)
  | attributeError (msg : String)
deriving DecidableEq

instance {ε α : Type} [DecidableEq ε] [DecidableEq α] : DecidableEq (Except ε α) := fun a b =>
  match a, b with
  | .ok x, .ok y => decidable_of_iff (x = y) (by simp)
  | .error x, .error y => decidable_of_iff (x = y) (by simp)
  | .ok _, .error _ => isFalse (by simp)
  | .error _, .ok _ => isFalse (by simp)

/-- A Python float as produced by `float(...)` in the validator: an exact
decimal value, a NaN, or a signed infinity. -/
inductive PyFloat where
  | fin (d : Dec)
  | nan
  | inf (neg : Bool)
deriving DecidableEq

/-- One spreadsheet cell as held in a pandas `DataFrame`: a text value, an
integer value, a float value (given by its exact decimal reading), or a
missing value (`NaN`). -/
inductive Cell where
  | str (s : String)
  | int (n : Int)
  | num (d : Dec)
  | nan
deriving DecidableEq

/-! ### Character-list utilities (Python string primitives) -/

/-- Strip leading and trailing whitespace, as `float(...)` does to its
string argument. -/
def trimChars (cs : List Char) : List Char :=
  ((cs.dropWhile Char.isWhitespace).reverse.dropWhile Char.isWhitespace).reverse

/-- Split a character list at every character satisfying `p`; empty pieces
are kept. -/
def splitOnPred (p : Char → Bool) : List Char → List (List Char)
  | [] => [[]]
  | c :: cs =>
    let r := splitOnPred p cs
    if p c then [] :: r
    else
      match r with
      | [] => [[c]]
      | h :: t => (c :: h) :: t

/-- Split a character list at every occurrence of `sep`. -/
def splitOnChar (sep : Char) : List Char → List (List Char) :=
  splitOnPred (fun c => c == sep)

/-- The numeric value of a run of decimal digits. -/
def natOfDigits (cs : List Char) : Nat :=
  cs.foldl (fun a c => a * 10 + (c.toNat - 48)) 0

/-- Every character is an ASCII decimal digit. -/
def allDigits (cs : List Char) : Bool :=
  cs.all Char.isDigit

/-- Python `s.split()` (no separator argument): split on whitespace runs and
drop the empty pieces. -/
def pySplit (s : String) : List String :=
  ((splitOnPred Char.isWhitespace s.toList).filter (fun w => !w.isEmpty)).map String.mk

/-! ### Python numeric coercions -/

/-- The exponent part of a float literal, after `e`: an optionally signed
digit run. -/
def parseExpPart : List Char → Option Int
  | [] => none
  | '+' :: ds => if ds ≠ [] ∧ allDigits ds then some ((natOfDigits ds : Int)) else none
  | '-' :: ds => if ds ≠ [] ∧ allDigits ds then some (-(natOfDigits ds : Int)) else none
  | ds => if allDigits ds then some ((natOfDigits ds : Int)) else none

/-- The mantissa of a float literal: `digits`, `digits.digits`, `digits.` or
`.digits`.  Returns the scaled integer value together with the number of
fractional digits. -/
def parseMantissa (cs : List Char) : Option (Nat × Nat) :=
  match splitOnChar '.' cs with
  | [ip] => if ip ≠ [] ∧ allDigits ip then some (natOfDigits ip, 0) else none
  | [ip, fp] =>
    if (ip ≠ [] ∨ fp ≠ []) ∧ allDigits ip ∧ allDigits fp then
      some (natOfDigits ip * 10 ^ fp.length + natOfDigits fp, fp.length)
    else none
  | _ => none

/-- Combine a mantissa `m / 10 ^ k` with a decimal exponent `e` into an exact
decimal. -/
def applyExp (m : Nat) (k : Nat) (e : Int) : Dec :=
  if (k : Int) ≤ e then ⟨(m : Int) * 10 ^ (e - (k : Int)).toNat, 0⟩
  else ⟨(m : Int), ((k : Int) - e).toNat⟩

/-- An unsigned decimal float literal, with optional exponent part. -/
def parseDecChars (cs : List Char) : Option Dec :=
  match splitOnChar 'e' cs with
  | [m] => (parseMantissa m).map (fun p => ⟨(p.1 : Int), p.2⟩)
  | [m, ex] =>
    match parseMantissa m, parseExpPart ex with
    | some p, some e => some (applyExp p.1 p.2 e)
    | _, _ => none
  | _ => none

/-- Python `float(s)` on a string: surrounding whitespace is stripped, an
optional sign is read, `nan` / `inf` / `infinity` (in any case) are special,
and otherwise a decimal literal is parsed.  (PEP 515 underscore grouping and
non-ASCII digits are accepted by Python but not modelled; no claim uses
them.) -/
def parsePyFloat (s : String) : Option PyFloat :=
  let t := trimChars s.toList
  let sb : Bool × List Char :=
    match t with
    | '+' :: rest => (false, rest)
    | '-' :: rest => (true, rest)
    | rest => (false, rest)
  let neg := sb.1
  let low := sb.2.map Char.toLower
  if low = "nan".toList then some PyFloat.nan
  else if low = "inf".toList ∨ low = "infinity".toList then some (PyFloat.inf neg)
  else
    match parseDecChars low with
    | some d => some (PyFloat.fin (if neg then ⟨-d.num, d.exp⟩ else d))
    | none => none

/-- Python `float(cell)` on a cell value. -/
def pyFloatOfCell : Cell → Except PyExn PyFloat
  | .str s =>
    match parsePyFloat s with
    | some v => .ok v
    | none => .error (.valueError ("could not convert string to float: '" ++ s ++ "'"))
  | .int n => .ok (.fin ⟨n, 0⟩)
  | .num d => .ok (.fin d)
  | .nan => .ok .nan

/-- Truncation toward zero of an exact decimal: what Python `int(f)` does on
a finite float. -/
def Dec.trunc (d : Dec) : Int :=
  if 0 ≤ d.num then Int.ofNat (d.num.toNat / 10 ^ d.exp)
  else - Int.ofNat (d.num.natAbs / 10 ^ d.exp)

/-- Python `int(f)` on a float value. -/
def pyIntOfFloat : PyFloat → Except PyExn Int
  | .fin d => .ok d.trunc
  | .nan => .error (.valueError "cannot convert float NaN to integer")
  | .inf _ => .error (.overflowError "cannot convert float infinity to integer")

/-- Python `int(float(cell))`, the numeric coercion used throughout the
validator. -/
def pyIntFloat (c : Cell) : Except PyExn Int :=
  match pyFloatOfCell c with
  | .ok v => pyIntOfFloat v
  | .error e => .error e

/-- Drop trailing zero digits of `num` while decreasing `exp`, fuelled by
`exp` itself. -/
def stripTrailingZeros : Nat → Int → Nat → Int × Nat
  | 0, n, e => (n, e)
  | _ + 1, n, 0 => (n, 0)
  | fuel + 1, n, e + 1 =>
    if n % 10 = 0 then stripTrailingZeros fuel (n / 10) e else (n, e + 1)

/-- Python `str(f)` on a float: shortest exact decimal rendering, with a
mandatory `.0` for integral values; `nan` and infinities render as in
Python.  (Python switches to exponent notation for very large or very small
magnitudes; that regime is not exercised by any claim and not modelled.) -/
def pyFloatStr : PyFloat → String
  | .nan => "nan"
  | .inf neg => if neg then "-inf" else "inf"
  | .fin d =>
    let ne := stripTrailingZeros d.exp d.num d.exp
    let n := ne.1
    let e := ne.2
    let sign := if n < 0 then "-" else ""
    if e = 0 then sign ++ toString n.natAbs ++ ".0"
    else
      let ds0 := (toString n.natAbs).toList
      let ds := List.replicate (e + 1 - ds0.length) '0' ++ ds0
      sign ++ String.mk (ds.take (ds.length - e)) ++ "." ++ String.mk (ds.drop (ds.length - e))

/-- Python `str(...)` of a cell value (pandas renders a missing value as
`nan`). -/
def strCell : Cell → String
  | .str s => s
  | .int n => toString n
  | .num d => pyFloatStr (.fin d)
  | .nan => "nan"

/-- `pd.notna`: false exactly on missing values. -/
def pyNotna : Cell → Bool
  | .nan => false
  | _ => true

/-! ### The configuration resource -/

/-- The JSON-like values stored in `config.json`.  The validator only ever
asks an object for its keys, so non-object values need no structure. -/
inductive Json where
  | obj (fields : List (String × Json))
  | leaf

/-- Python `j.get(k, dict())` on a JSON object. -/
def Json.getD (j : Json) (k : String) : Json :=
  match j with
  | .obj fs => (fs.lookup k).getD (Json.obj [])
  | .leaf => Json.obj []

/-- Python `k in j` on a JSON object: key membership. -/
def Json.hasKey (j : Json) (k : String) : Bool :=
  match j with
  | .obj fs => fs.any (fun p => p.1 == k)
  | .leaf => false

/-- Python `j.keys()`, in insertion order. -/
def Json.keys : Json → List String
  | .obj fs => fs.map Prod.fst
  | .leaf => []

/-- The parsed `config.json`: a JSON object given by its ordered fields. -/
abbrev Config := List (String × Json)

/-- Python `self.config.get(k, dict())`. -/
def configGetD (cfg : Config) (k : String) : Json :=
  (cfg.lookup k).getD (Json.obj [])

/-! ### Findings -/

/-- The `ValidationResult` pydantic model of `validator.py`. -/
structure ValidationResult where
  level : String
  sheet : String
  row : Option Nat := none
  column : Option String := none
  message : String
deriving DecidableEq

/-- `ValidationResult.__str__`.  Note that `if self.column:` renders an
empty-string column like a missing one. -/
def ValidationResult.render (v : ValidationResult) : String :=
  let l0 := "[" ++ v.sheet ++ "]"
  let l1 := match v.row with
    | some r => l0 ++ " Row " ++ toString r
    | none => l0
  let l2 := match v.column with
    | some c => if c == "" then l1 else l1 ++ " Column '" ++ c ++ "'"
    | none => l1
  l2 ++ ": " ++ v.message

/-- An error-level finding. -/
def mkErr (sheet : String) (row : Option Nat) (column : Option String) (message : String) :
    ValidationResult :=
  ⟨"error", sheet, row, column, message⟩

/-- A warning-level finding. -/
def mkWarn (sheet : String) (row : Option Nat) (column : Option String) (message : String) :
    ValidationResult :=
  ⟨"warning", sheet, row, column, message⟩

/-! ### Input tables -/

/-- One row of a pandas `DataFrame`: its cells keyed by column name. -/
abbrev Row := List (String × Cell)

/-- Python `row.get(c, default)` on a pandas row. -/
def rowGet (r : Row) (c : String) (d : Cell) : Cell :=
  (r.lookup c).getD d

/-- A pandas `DataFrame` as the validator sees it: column names and rows. -/
structure DataFrame where
  columns : List String
  rows : List Row
deriving DecidableEq

/-- `df.empty`: true when some axis has length zero. -/
def DataFrame.pyEmpty (df : DataFrame) : Bool :=
  df.rows.isEmpty || df.columns.isEmpty

/-- `df[c].values`: the cells of column `c`, row by row. -/
def DataFrame.colValues (df : DataFrame) (c : String) : List Cell :=
  df.rows.map (fun r => rowGet r c Cell.nan)

/-- `s in values` for a Python string against spreadsheet cells: numpy falls
back to elementwise `==`, which is string equality on string cells and false
against numeric or missing cells. -/
def containsStr (cells : List Cell) (s : String) : Bool :=
  cells.any (fun c => match c with | .str t => t == s | _ => false)

/-- The `data` argument of `CDDValidator`: sheet name to frame, in insertion
order. -/
abbrev TableSet := List (String × DataFrame)

/-! ### Phase outcomes -/

/-- The observable outcome of a validation phase: what it appended to
`self.errors` and `self.warnings`, and the exception (if any) that escaped
it — in which case the lists hold what was appended before the raise. -/
structure PhaseOut where
  es : List ValidationResult
  ws : List ValidationResult
  exn : Option PyExn
deriving DecidableEq

/-- A phase that appended nothing. -/
def PhaseOut.empty : PhaseOut := ⟨[], [], none⟩

/-- Sequential composition: the second phase runs only when the first did not
raise. -/
def PhaseOut.seq (a b : PhaseOut) : PhaseOut :=
  match a.exn with
  | some _ => a
  | none => ⟨a.es ++ b.es, a.ws ++ b.ws, b.exn⟩

/-! ### The fixed schema lists of `CDDValidator` -/

def REQUIRED_SHEETS : List String := ["IP", "Radio 4G"]

def OPTIONAL_SHEETS : List String :=
  ["Radio 2G", "Radio 3G", "Radio 5G", "2G-2G", "2G-3G", "2G-4G",
   "3G-2G", "3G-3G", "3G-4G", "RET", "Mapping"]

def IP_REQUIRED_COLUMNS : List String :=
  ["NE_Name", "eNBId", "OAM_IP", "OAM_Gateway", "LTE_IP", "LTE_Gateway"]

def IP_OPTIONAL_COLUMNS : List String :=
  ["gNBId", "NR_IP", "NR_Gateway", "MME", "AMF", "Baseband config"]

def RADIO_4G_REQUIRED_COLUMNS : List String :=
  ["NE_Name", "CellName", "cellId", "PCI", "TAC", "arfcndl",
   "dlChannelBandwidth", "RRU", "RRUname", "rruPort"]

def RADIO_4G_OPTIONAL_COLUMNS : List String :=
  ["arfcnul", "ulChannelBandwidth", "RSI", "cpSpeRefSigPwr",
   "MIMO", "CellType", "RiPort Baseband", "RiPort RRU", "Relation 5G"]

def RADIO_5G_REQUIRED_COLUMNS : List String :=
  ["NE_Name", "nRCell", "gNBId", "cellLocalId", "nRPCI", "nRTAC",
   "arfcnDL", "bSChannelBwDL", "RRU", "RRUname", "rruPort"]

/-! ### Format validators -/

/-- `_is_valid_ne_name`: the regex `^[ge][A-Z]\x7b2\x7d\d+[A-Z]?$` — a `g` or
`e`, two ASCII uppercase letters, a nonempty digit run, an optional trailing
ASCII uppercase letter.  (The `$` anchor also tolerates one trailing newline
and `\d` matches non-ASCII decimal digits; neither is exercised by a claim.) -/
def is_valid_ne_name (s : String) : Bool :=
  match s.toList with
  | c0 :: c1 :: c2 :: rest =>
    (c0 == 'g' || c0 == 'e') && c1.isUpper && c2.isUpper &&
    !(rest.takeWhile Char.isDigit).isEmpty &&
    (match rest.dropWhile Char.isDigit with
     | [] => true
     | [c] => c.isUpper
     | _ => false)
  | _ => false

/-- `_is_valid_ip`: four dot-separated runs of one to three ASCII digits,
each of value at most 255. -/
def is_valid_ip (s : String) : Bool :=
  let parts := splitOnChar '.' s.toList
  parts.length == 4 &&
  parts.all (fun p => decide (1 ≤ p.length) && decide (p.length ≤ 3) && allDigits p) &&
  parts.all (fun p => decide (natOfDigits p ≤ 255))

/-! ### The validation phases -/

/-- `_validate_required_sheets`. -/
def validate_required_sheets (data : TableSet) : PhaseOut :=
  let es := REQUIRED_SHEETS.filterMap (fun name =>
    match data.lookup name with
    | none => some (mkErr name none none ("Required sheet '" ++ name ++ "' is missing"))
    | some df =>
      if df.pyEmpty then some (mkErr name none none ("Required sheet '" ++ name ++ "' is empty"))
      else none)
  let ws := OPTIONAL_SHEETS.filterMap (fun name =>
    if (match data.lookup name with | none => true | some df => df.pyEmpty) then
      some (mkWarn name none none ("Optional sheet '" ++ name ++ "' is missing or empty"))
    else none)
  ⟨es, ws, none⟩

/-- The required-column loop shared by the sheet validators: one finding per
declared column absent from the frame. -/
def missingColumnFindings (lv sheet : String) (required cols : List String)
    (msg : String → String) : List ValidationResult :=
  required.filterMap (fun c =>
    if cols.contains c then none
    else some ⟨lv, sheet, none, some c, msg c⟩)

/-- The `NE_Name` format warning of `_validate_ip_sheet`. -/
def ipNeNameWarns (rowNum : Nat) (neName : String) : List ValidationResult :=
  if neName != "" && !(is_valid_ne_name neName) then
    [mkWarn "IP" (some rowNum) (some "NE_Name")
      ("NE_Name '" ++ neName ++ "' doesn't match expected format (e.g., gCM00025Z, eBL00123Z)")]
  else []

/-- The IP-address checks of `_validate_ip_sheet` over the columns `OAM_IP`,
`LTE_IP`, `NR_IP` that are present; empty and `nan` string forms are
skipped. -/
def ipAddrErrs (cols : List String) (rowNum : Nat) (r : Row) : List ValidationResult :=
  (["OAM_IP", "LTE_IP", "NR_IP"].filter (fun c => cols.contains c)).filterMap (fun c =>
    let v := strCell (rowGet r c (Cell.str ""))
    if v != "" && v != "nan" && !(is_valid_ip v) then
      some (mkErr "IP" (some rowNum) (some c) ("Invalid IP address: '" ++ v ++ "'"))
    else none)

/-- The `eNBId` numeric check of `_validate_ip_sheet` (guarded by
try/except). -/
def ipEnbErrs (rowNum : Nat) (enb : Cell) : List ValidationResult :=
  if pyNotna enb then
    match pyIntFloat enb with
    | .ok _ => []
    | .error _ =>
      [mkErr "IP" (some rowNum) (some "eNBId") ("eNBId '" ++ strCell enb ++ "' must be numeric")]
  else []

/-- The registry-membership warnings of `_validate_ip_sheet` for the `MME`
and `AMF` columns: the cell is split on whitespace and each name is looked
up in the corresponding registry of the config. -/
def ipRegistryWarns (column : String) (registry : Json) (rowNum : Nat) (s : String) :
    List ValidationResult :=
  if s != "" && s != "nan" then
    (pySplit s).filterMap (fun name =>
      if registry.hasKey name then none
      else some (mkWarn "IP" (some rowNum) (some column)
        (column ++ " '" ++ name ++ "' not found in config.json")))
  else []

/-- One row of `_validate_ip_sheet`: the errors and warnings it appends, in
append order. -/
def ipRowFindings (cols : List String) (mmeCfg amfCfg : Json) (idx : Nat) (r : Row) :
    List ValidationResult × List ValidationResult :=
  let rowNum := idx + 2
  let neW := ipNeNameWarns rowNum (strCell (rowGet r "NE_Name" (Cell.str "")))
  let ipE := ipAddrErrs cols rowNum r
  let enbE := ipEnbErrs rowNum (rowGet r "eNBId" (Cell.str ""))
  let mmeW := ipRegistryWarns "MME" mmeCfg rowNum (strCell (rowGet r "MME" (Cell.str "")))
  let amfW := ipRegistryWarns "AMF" amfCfg rowNum (strCell (rowGet r "AMF" (Cell.str "")))
  (ipE ++ enbE, neW ++ mmeW ++ amfW)

/-- The row loop of `_validate_ip_sheet`, rows indexed from `k`. -/
def ipRows (cols : List String) (mmeCfg amfCfg : Json) (k : Nat) :
    List Row → List ValidationResult × List ValidationResult
  | [] => ([], [])
  | r :: rs =>
    let h := ipRowFindings cols mmeCfg amfCfg k r
    let t := ipRows cols mmeCfg amfCfg (k + 1) rs
    (h.1 ++ t.1, h.2 ++ t.2)

/-- `_validate_ip_sheet`. -/
def validate_ip_sheet (data : TableSet) (config : Config) : PhaseOut :=
  match data.lookup "IP" with
  | none => PhaseOut.empty
  | some df =>
    if df.pyEmpty then PhaseOut.empty
    else
      let colE := missingColumnFindings "error" "IP" IP_REQUIRED_COLUMNS df.columns
        (fun c => "Required column '" ++ c ++ "' is missing")
      let p := ipRows df.columns (configGetD config "mme") (configGetD config "amf") 0 df.rows
      ⟨colE ++ p.1, p.2, none⟩

/-- The cross-sheet `NE_Name` check shared verbatim by the 4G and 5G sheet
validators: skipped when the row's name renders empty, when the IP sheet is
absent, or when it has no `NE_Name` column. -/
def neRefErrs (sheet : String) (data : TableSet) (rowNum : Nat) (neName : String) :
    List ValidationResult :=
  if neName != "" then
    match data.lookup "IP" with
    | some ipDf =>
      if ipDf.columns.contains "NE_Name" then
        if containsStr (ipDf.colValues "NE_Name") neName then []
        else [mkErr sheet (some rowNum) (some "NE_Name")
          ("NE_Name '" ++ neName ++ "' not found in IP sheet")]
      else []
    | none => []
  else []

/-- The `PCI` range check of `_validate_radio_4g_sheet`: coerce via
`int(float(...))` inside try/except, then test the inclusive range 0-503. -/
def pciErrs4g (rowNum : Nat) (pci : Cell) : List ValidationResult :=
  if pyNotna pci then
    match pyIntFloat pci with
    | .ok n =>
      if n < 0 ∨ n > 503 then
        [mkErr "Radio 4G" (some rowNum) (some "PCI")
          ("PCI " ++ toString n ++ " is out of range (0-503)")]
      else []
    | .error _ =>
      [mkErr "Radio 4G" (some rowNum) (some "PCI")
        ("PCI '" ++ strCell pci ++ "' must be numeric")]
  else []

/-- The `arfcndl` lookup of `_validate_radio_4g_sheet`.  The coercion
`str(int(float(arfcn_dl)))` is NOT wrapped in try/except here, so a
non-coercible cell raises out of the whole validation. -/
def arfcnCheck (bim : Json) (rowNum : Nat) (arfcn : Cell) :
    Except PyExn (List ValidationResult) :=
  if pyNotna arfcn then
    match pyIntFloat arfcn with
    | .ok n =>
      .ok (if bim.hasKey (toString n) then []
        else [mkWarn "Radio 4G" (some rowNum) (some "arfcndl")
          ("EARFCN " ++ toString n ++ " not found in bandIndicator_mapping")])
    | .error e => .error e
  else .ok []

/-- The `RRUname` lookup of `_validate_radio_4g_sheet`: empty and `nan`
string forms are skipped. -/
def rruWarns (hw : Json) (rowNum : Nat) (rru : String) : List ValidationResult :=
  if rru != "" && rru != "nan" && !(hw.hasKey rru) then
    [mkWarn "Radio 4G" (some rowNum) (some "RRUname")
      ("RRU type '" ++ rru ++ "' not found in hwWorkScence_mapping")]
  else []

/-- The `dlChannelBandwidth` lookup of `_validate_radio_4g_sheet`.  The
coercion `str(float(dl_bw))` is NOT wrapped in try/except either. -/
def bwCheck (bwm : Json) (rowNum : Nat) (bw : Cell) : Except PyExn (List ValidationResult) :=
  if pyNotna bw then
    match pyFloatOfCell bw with
    | .ok v =>
      .ok (if bwm.hasKey (pyFloatStr v) then []
        else [mkWarn "Radio 4G" (some rowNum) (some "dlChannelBandwidth")
          ("Bandwidth " ++ pyFloatStr v ++ " not found in bandwidth_mapping")])
    | .error e => .error e
  else .ok []

/-- One row of `_validate_radio_4g_sheet`, in source order: `NE_Name`
reference, `PCI` range, `arfcndl` lookup, `RRUname` lookup,
`dlChannelBandwidth` lookup. -/
def r4Row (data : TableSet) (bwm bim hw : Json) (idx : Nat) (r : Row) : PhaseOut :=
  let rowNum := idx + 2
  let neE := neRefErrs "Radio 4G" data rowNum (strCell (rowGet r "NE_Name" (Cell.str "")))
  let pciE := pciErrs4g rowNum (rowGet r "PCI" (Cell.str ""))
  match arfcnCheck bim rowNum (rowGet r "arfcndl" (Cell.str "")) with
  | .error e => ⟨neE ++ pciE, [], some e⟩
  | .ok arfW =>
    let rruW := rruWarns hw rowNum (strCell (rowGet r "RRUname" (Cell.str "")))
    match bwCheck bwm rowNum (rowGet r "dlChannelBandwidth" (Cell.str "")) with
    | .error e => ⟨neE ++ pciE, arfW ++ rruW, some e⟩
    | .ok bwW => ⟨neE ++ pciE, arfW ++ rruW ++ bwW, none⟩

/-- The row loop of `_validate_radio_4g_sheet`: stops at the first raising
row, keeping the findings already appended. -/
def r4Rows (data : TableSet) (bwm bim hw : Json) (k : Nat) : List Row → PhaseOut
  | [] => PhaseOut.empty
  | r :: rs => (r4Row data bwm bim hw k r).seq (r4Rows data bwm bim hw (k + 1) rs)

/-- `_validate_radio_4g_sheet`. -/
def validate_radio_4g_sheet (data : TableSet) (config : Config) : PhaseOut :=
  match data.lookup "Radio 4G" with
  | none => PhaseOut.empty
  | some df =>
    if df.pyEmpty then PhaseOut.empty
    else
      let colE := missingColumnFindings "error" "Radio 4G" RADIO_4G_REQUIRED_COLUMNS df.columns
        (fun c => "Required column '" ++ c ++ "' is missing")
      let spu := (configGetD config "SPU").getD "V1.70.26"
      (PhaseOut.mk colE [] none).seq
        (r4Rows data (spu.getD "bandwidth_mapping") (spu.getD "bandIndicator_mapping")
          (spu.getD "hwWorkScence_mapping") 0 df.rows)

/-- The `nRPCI` range check of `_validate_radio_5g_sheet`: coerce via
`int(float(...))` inside try/except, then test the inclusive range 0-1007. -/
def pciErrs5g (rowNum : Nat) (pci : Cell) : List ValidationResult :=
  if pyNotna pci then
    match pyIntFloat pci with
    | .ok n =>
      if n < 0 ∨ n > 1007 then
        [mkErr "Radio 5G" (some rowNum) (some "nRPCI")
          ("nRPCI " ++ toString n ++ " is out of range (0-1007)")]
      else []
    | .error _ =>
      [mkErr "Radio 5G" (some rowNum) (some "nRPCI")
        ("nRPCI '" ++ strCell pci ++ "' must be numeric")]
  else []

/-- One row of `_validate_radio_5g_sheet` (it appends errors only). -/
def r5Row (data : TableSet) (idx : Nat) (r : Row) : List ValidationResult :=
  let rowNum := idx + 2
  neRefErrs "Radio 5G" data rowNum (strCell (rowGet r "NE_Name" (Cell.str ""))) ++
    pciErrs5g rowNum (rowGet r "nRPCI" (Cell.str ""))

/-- The row loop of `_validate_radio_5g_sheet`. -/
def r5Rows (data : TableSet) (k : Nat) : List Row → List ValidationResult
  | [] => []
  | r :: rs => r5Row data k r ++ r5Rows data (k + 1) rs

/-- `_validate_radio_5g_sheet`.  Missing required columns are reported as
warnings here ("Expected column ..."), unlike the IP and 4G sheets. -/
def validate_radio_5g_sheet (data : TableSet) : PhaseOut :=
  match data.lookup "Radio 5G" with
  | none => PhaseOut.empty
  | some df =>
    if df.pyEmpty then PhaseOut.empty
    else
      let colW := missingColumnFindings "warning" "Radio 5G" RADIO_5G_REQUIRED_COLUMNS df.columns
        (fun c => "Expected column '" ++ c ++ "' is missing")
      ⟨r5Rows data 0 df.rows, colW, none⟩

/-- `_validate_mapping_sheet`. -/
def validate_mapping_sheet (data : TableSet) : PhaseOut :=
  match data.lookup "Mapping" with
  | some df =>
    if df.pyEmpty then
      ⟨[], [mkWarn "Mapping" none none
        "Mapping sheet is missing or empty. Using default mappings."], none⟩
    else
      ⟨missingColumnFindings "error" "Mapping" ["Version", "Sheet", "Column"] df.columns
        (fun c => "Required column '" ++ c ++ "' is missing from Mapping sheet"), [], none⟩
  | none =>
    ⟨[], [mkWarn "Mapping" none none
      "Mapping sheet is missing or empty. Using default mappings."], none⟩

/-- The top-level sections `_validate_config_references` requires.  Note:
there is no entry for the `amf` registry. -/
def REQUIRED_CONFIG_SECTIONS : List String := ["mcc", "mnc", "province", "mme", "SPU"]

/-- `_validate_config_references`. -/
def validate_config_references (config : Config) : PhaseOut :=
  let es := REQUIRED_CONFIG_SECTIONS.filterMap (fun s =>
    if (config.lookup s).isSome then none
    else some (mkErr "config.json" none none
      ("Required section '" ++ s ++ "' is missing from config.json")))
  let spu := configGetD config "SPU"
  let ws :=
    if spu.hasKey "V1.70.26" then []
    else [mkWarn "config.json" none none
      ("SPU version V1.70.26 not found. Available versions: " ++
        String.intercalate ", " spu.keys)]
  ⟨es, ws, none⟩

/-! ### The validator object -/

/-- All six phases of `CDDValidator.validate`, in source order. -/
def validateFindings (data : TableSet) (config : Config) : PhaseOut :=
  (validate_required_sheets data).seq
    ((validate_ip_sheet data config).seq
      ((validate_radio_4g_sheet data config).seq
        ((validate_radio_5g_sheet data).seq
          ((validate_mapping_sheet data).seq
            (validate_config_references config)))))

/-- The `CDDValidator` object: its attributes once `__init__` has finished. -/
structure CDDValidator where
  data : TableSet
  config : Config
  errors : List ValidationResult
  warnings : List ValidationResult

/-- `CDDValidator.validate`: clears the accumulators, runs the phases, stores
the findings back on the object, and returns them rendered to strings — or
propagates the exception, leaving the partial findings on the object. -/
def CDDValidator.validate (v : CDDValidator) :
    CDDValidator × Except PyExn (List String × List String) :=
  let out := validateFindings v.data v.config
  let w : CDDValidator := { v with errors := out.es, warnings := out.ws }
  match out.exn with
  | some e => (w, .error e)
  | none => (w, .ok (out.es.map ValidationResult.render, out.ws.map ValidationResult.render))

/-- `CDDValidator._load_config`, as called from `__init__`.  `errorsSlot` is
the value the `self.errors` attribute has at call time, `none` meaning the
attribute has not been assigned yet.  On a load failure the handler runs
`self.errors.append(...)`: with the slot unset that attribute access raises
`AttributeError`; otherwise the finding is recorded and the empty config
returned. -/
def load_config (errorsSlot : Option (List ValidationResult))
    (loadResult : Except String Config) :
    Except PyExn (Config × Option (List ValidationResult)) :=
  match loadResult with
  | .ok cfg => .ok (cfg, errorsSlot)
  | .error cause =>
    match errorsSlot with
    | none => .error (.attributeError "'CDDValidator' object has no attribute 'errors'")
    | some es => .ok ([],
        some (es ++ [mkErr "config" none none ("Failed to load config.json: " ++ cause)]))

/-- `CDDValidator.__init__`: sets `self.data`, then `self.config` via
`_load_config` — at which point `self.errors` does not exist yet — and only
then `self.errors = []` and `self.warnings = []`. -/
def CDDValidator.init (data : TableSet) (loadResult : Except String Config) :
    Except PyExn CDDValidator :=
  match load_config none loadResult with
  | .error e => .error e
  | .ok (cfg, _) => .ok ⟨data, cfg, [], []⟩

/-! ### Finding selectors used by the claim statements -/

/-- The findings naming sheet `S` and column `c` with no row number. -/
def colMissingPred (S c : String) (f : ValidationResult) : Bool :=
  f.sheet == S && f.row == (none : Option Nat) && f.column == some c

/-- The findings naming sheet `S`, column `c` and row `n`. -/
def rowColPred (S c : String) (n : Nat) (f : ValidationResult) : Bool :=
  f.sheet == S && f.row == some n && f.column == some c

/-- The findings naming column `c`. -/
def colPred (c : String) (f : ValidationResult) : Bool :=
  f.column == some c

/-! ### Lemmas: phase outcomes -/

lemma seq_es_of_none {a b : PhaseOut} (ha : a.exn = none) :
    (a.seq b).es = a.es ++ b.es := by
  unfold PhaseOut.seq; rw [ha]

lemma seq_ws_of_none {a b : PhaseOut} (ha : a.exn = none) :
    (a.seq b).ws = a.ws ++ b.ws := by
  unfold PhaseOut.seq; rw [ha]

lemma seq_exn_of_none {a b : PhaseOut} (ha : a.exn = none) :
    (a.seq b).exn = b.exn := by
  unfold PhaseOut.seq; rw [ha]

lemma seq_exn_none {a b : PhaseOut} (h : (a.seq b).exn = none) :
    a.exn = none ∧ b.exn = none := by
  cases ha : a.exn with
  | none => exact ⟨rfl, by rw [seq_exn_of_none ha] at h; exact h⟩
  | some e =>
    exfalso
    have : (a.seq b).exn = some e := by unfold PhaseOut.seq; rw [ha]; exact ha
    rw [h] at this
    exact Option.noConfusion this

lemma exn_validate_required_sheets (data : TableSet) :
    (validate_required_sheets data).exn = none := rfl

lemma exn_validate_ip_sheet (data : TableSet) (cfg : Config) :
    (validate_ip_sheet data cfg).exn = none := by
  unfold validate_ip_sheet
  cases data.lookup "IP" with
  | none => rfl
  | some df => by_cases h : df.pyEmpty <;> simp [h, PhaseOut.empty]

lemma exn_validate_radio_5g_sheet (data : TableSet) :
    (validate_radio_5g_sheet data).exn = none := by
  unfold validate_radio_5g_sheet
  cases data.lookup "Radio 5G" with
  | none => rfl
  | some df => by_cases h : df.pyEmpty <;> simp [h, PhaseOut.empty]

lemma exn_validate_mapping_sheet (data : TableSet) :
    (validate_mapping_sheet data).exn = none := by
  unfold validate_mapping_sheet
  cases data.lookup "Mapping" with
  | none => rfl
  | some df => by_cases h : df.pyEmpty <;> simp [h]

lemma exn_validate_config_references (cfg : Config) :
    (validate_config_references cfg).exn = none := rfl

/-- Under a raise-free run, the error list of `validate` is the concatenation
of the six phases' error lists, in phase order. -/
lemma validateFindings_es (data : TableSet) (cfg : Config)
    (hexn : (validateFindings data cfg).exn = none) :
    (validateFindings data cfg).es =
      (validate_required_sheets data).es ++ ((validate_ip_sheet data cfg).es ++
      ((validate_radio_4g_sheet data cfg).es ++ ((validate_radio_5g_sheet data).es ++
      ((validate_mapping_sheet data).es ++ (validate_config_references cfg).es)))) := by
  unfold validateFindings at hexn ⊢
  rw [seq_exn_of_none (exn_validate_required_sheets data),
      seq_exn_of_none (exn_validate_ip_sheet data cfg)] at hexn
  have h4 : (validate_radio_4g_sheet data cfg).exn = none := (seq_exn_none hexn).1
  rw [seq_es_of_none (exn_validate_required_sheets data),
      seq_es_of_none (exn_validate_ip_sheet data cfg),
      seq_es_of_none h4,
      seq_es_of_none (exn_validate_radio_5g_sheet data),
      seq_es_of_none (exn_validate_mapping_sheet data)]

/-- Under a raise-free run, the warning list of `validate` is the
concatenation of the six phases' warning lists, in phase order. -/
lemma validateFindings_ws (data : TableSet) (cfg : Config)
    (hexn : (validateFindings data cfg).exn = none) :
    (validateFindings data cfg).ws =
      (validate_required_sheets data).ws ++ ((validate_ip_sheet data cfg).ws ++
      ((validate_radio_4g_sheet data cfg).ws ++ ((validate_radio_5g_sheet data).ws ++
      ((validate_mapping_sheet data).ws ++ (validate_config_references cfg).ws)))) := by
  unfold validateFindings at hexn ⊢
  rw [seq_exn_of_none (exn_validate_required_sheets data),
      seq_exn_of_none (exn_validate_ip_sheet data cfg)] at hexn
  have h4 : (validate_radio_4g_sheet data cfg).exn = none := (seq_exn_none hexn).1
  rw [seq_ws_of_none (exn_validate_required_sheets data),
      seq_ws_of_none (exn_validate_ip_sheet data cfg),
      seq_ws_of_none h4,
      seq_ws_of_none (exn_validate_radio_5g_sheet data),
      seq_ws_of_none (exn_validate_mapping_sheet data)]

/-- The 4G phase of a raise-free run is itself raise-free. -/
lemma exn4_of_validateFindings (data : TableSet) (cfg : Config)
    (hexn : (validateFindings data cfg).exn = none) :
    (validate_radio_4g_sheet data cfg).exn = none := by
  unfold validateFindings at hexn
  rw [seq_exn_of_none (exn_validate_required_sheets data),
      seq_exn_of_none (exn_validate_ip_sheet data cfg)] at hexn
  exact (seq_exn_none hexn).1

/-! ### Lemmas: guarded filterMap patterns -/

lemma mem_filterMap_guard {α : Type} {l : List α} {g : α → Bool} {mk : α → ValidationResult}
    {f : ValidationResult}
    (h : f ∈ l.filterMap (fun a => if g a then none else some (mk a))) :
    ∃ a ∈ l, g a = false ∧ f = mk a := by
  rw [List.mem_filterMap] at h
  obtain ⟨a, ha, hf⟩ := h
  by_cases hg : g a
  · rw [if_pos hg] at hf; exact absurd hf (by simp)
  · rw [if_neg hg] at hf
    injection hf with hf
    exact ⟨a, ha, by simpa using hg, hf.symm⟩

lemma mem_filterMap_guard_pos {α : Type} {l : List α} {g : α → Bool} {mk : α → ValidationResult}
    {f : ValidationResult}
    (h : f ∈ l.filterMap (fun a => if g a then some (mk a) else none)) :
    ∃ a ∈ l, g a = true ∧ f = mk a := by
  rw [List.mem_filterMap] at h
  obtain ⟨a, ha, hf⟩ := h
  by_cases hg : g a
  · rw [if_pos hg] at hf
    injection hf with hf
    exact ⟨a, ha, hg, hf.symm⟩
  · rw [if_neg hg] at hf; exact absurd hf (by simp)

lemma filterMap_guard_eq_map_filter {α : Type} (l : List α) (g : α → Bool)
    (mk : α → ValidationResult) :
    l.filterMap (fun a => if g a then none else some (mk a)) =
      (l.filter (fun a => !(g a))).map mk := by
  induction l with
  | nil => rfl
  | cons d ds ih =>
    rw [List.filterMap_cons, List.filter_cons]
    by_cases h : g d <;> simp [h, ih]

lemma filter_filterMap_guard_nil {l : List String} {g : String → Bool}
    {mk : String → ValidationResult} {p : ValidationResult → Bool} {c : String}
    (hmk : ∀ a, p (mk a) = (a == c)) (hc : c ∉ l) :
    (l.filterMap (fun a => if g a then none else some (mk a))).filter p = [] := by
  rw [List.filter_eq_nil_iff]
  intro f hf
  obtain ⟨a, ha, -, rfl⟩ := mem_filterMap_guard hf
  have hac : a ≠ c := fun h => hc (h ▸ ha)
  simp [hmk, hac]

lemma filter_filterMap_guard_eq {l : List String} {g : String → Bool}
    {mk : String → ValidationResult} {p : ValidationResult → Bool} {c : String}
    (hmk : ∀ a, p (mk a) = (a == c)) (hnd : l.Nodup) (hc : c ∈ l) (hg : g c = false) :
    (l.filterMap (fun a => if g a then none else some (mk a))).filter p = [mk c] := by
  induction l with
  | nil => cases hc
  | cons d ds ih =>
    rw [List.nodup_cons] at hnd
    rw [List.filterMap_cons]
    rcases List.mem_cons.mp hc with rfl | hcds
    · rw [if_neg (by simp [hg]), List.filter_cons_of_pos (by simp [hmk])]
      rw [filter_filterMap_guard_nil hmk hnd.1]
    · have hdc : d ≠ c := fun h => hnd.1 (h ▸ hcds)
      by_cases hgd : g d
      · rw [if_pos hgd]
        exact ih hnd.2 hcds
      · rw [if_neg hgd, List.filter_cons_of_neg (by simp [hmk, hdc])]
        exact ih hnd.2 hcds

/-! ### Lemmas: shapes of the findings each phase emits -/

lemma mem_missingColumnFindings {lv S : String} {req cols : List String}
    {msg : String → String} {f : ValidationResult}
    (h : f ∈ missingColumnFindings lv S req cols msg) :
    ∃ c ∈ req, cols.contains c = false ∧ f = ⟨lv, S, none, some c, msg c⟩ := by
  unfold missingColumnFindings at h
  exact mem_filterMap_guard h

lemma missingColumnFindings_filter_eq {lv S : String} {req cols : List String}
    {msg : String → String} {c : String} (hnd : req.Nodup) (hc : c ∈ req)
    (hmiss : cols.contains c = false) :
    (missingColumnFindings lv S req cols msg).filter (colMissingPred S c) =
      [⟨lv, S, none, some c, msg c⟩] := by
  unfold missingColumnFindings
  exact filter_filterMap_guard_eq (by intro a; simp [colMissingPred]) hnd hc hmiss

lemma filter_eq_nil_of_shape {l : List ValidationResult} {p : ValidationResult → Bool}
    (h : ∀ f ∈ l, p f = false) : l.filter p = [] := by
  rw [List.filter_eq_nil_iff]
  intro f hf
  simp [h f hf]

lemma mem_validate_required_sheets_es {data : TableSet} {f : ValidationResult}
    (h : f ∈ (validate_required_sheets data).es) :
    f.column = none ∧ f.row = none ∧ (f.sheet = "IP" ∨ f.sheet = "Radio 4G") := by
  unfold validate_required_sheets at h
  simp only [List.mem_filterMap] at h
  obtain ⟨a, ha, hf⟩ := h
  have hcore : f.column = none ∧ f.row = none ∧ f.sheet = a := by
    split at hf
    · injection hf with hf
      subst hf
      exact ⟨rfl, rfl, rfl⟩
    · split at hf
      · injection hf with hf
        subst hf
        exact ⟨rfl, rfl, rfl⟩
      · exact absurd hf (by simp)
  refine ⟨hcore.1, hcore.2.1, ?_⟩
  rw [hcore.2.2]
  simpa [REQUIRED_SHEETS] using ha

lemma mem_validate_required_sheets_ws {data : TableSet} {f : ValidationResult}
    (h : f ∈ (validate_required_sheets data).ws) :
    f.column = none ∧ f.row = none := by
  unfold validate_required_sheets at h
  simp only [List.mem_filterMap] at h
  obtain ⟨a, ha, hf⟩ := h
  split at hf
  · injection hf with hf
    subst hf
    exact ⟨rfl, rfl⟩
  · exact absurd hf (by simp)

lemma mem_validate_mapping_sheet_es {data : TableSet} {f : ValidationResult}
    (h : f ∈ (validate_mapping_sheet data).es) : f.sheet = "Mapping" := by
  unfold validate_mapping_sheet at h
  split at h
  · split at h
    · exact absurd h (by simp)
    · obtain ⟨c, -, -, rfl⟩ := mem_missingColumnFindings h
      rfl
  · exact absurd h (by simp)

lemma mem_validate_mapping_sheet_ws {data : TableSet} {f : ValidationResult}
    (h : f ∈ (validate_mapping_sheet data).ws) : f.sheet = "Mapping" := by
  unfold validate_mapping_sheet at h
  split at h
  · split at h
    · simp only [List.mem_singleton] at h
      subst h
      rfl
    · exact absurd h (by simp)
  · simp only [List.mem_singleton] at h
    subst h
    rfl

lemma mem_validate_config_references_es {cfg : Config} {f : ValidationResult}
    (h : f ∈ (validate_config_references cfg).es) : f.sheet = "config.json" := by
  unfold validate_config_references at h
  obtain ⟨s, -, -, rfl⟩ := mem_filterMap_guard h
  rfl

lemma mem_validate_config_references_ws {cfg : Config} {f : ValidationResult}
    (h : f ∈ (validate_config_references cfg).ws) : f.sheet = "config.json" := by
  simp only [validate_config_references] at h
  split at h
  · exact absurd h (by simp)
  · simp only [List.mem_singleton] at h
    subst h
    rfl

/-! ### Lemmas: the IP sheet phase -/

lemma mem_ipNeNameWarns {rowNum : Nat} {nm : String} {f : ValidationResult}
    (h : f ∈ ipNeNameWarns rowNum nm) :
    f.sheet = "IP" ∧ f.row = some rowNum ∧ f.column = some "NE_Name" := by
  unfold ipNeNameWarns at h
  split at h
  · simp only [List.mem_singleton] at h
    subst h
    exact ⟨rfl, rfl, rfl⟩
  · exact absurd h (by simp)

lemma mem_ipAddrErrs {cols : List String} {rowNum : Nat} {r : Row} {f : ValidationResult}
    (h : f ∈ ipAddrErrs cols rowNum r) :
    ∃ c, (c = "OAM_IP" ∨ c = "LTE_IP" ∨ c = "NR_IP") ∧
      strCell (rowGet r c (Cell.str "")) ≠ "" ∧ strCell (rowGet r c (Cell.str "")) ≠ "nan" ∧
      f = mkErr "IP" (some rowNum) (some c)
        ("Invalid IP address: '" ++ strCell (rowGet r c (Cell.str "")) ++ "'") := by
  unfold ipAddrErrs at h
  rw [List.mem_filterMap] at h
  obtain ⟨c, hc, hf⟩ := h
  have hc3 : c = "OAM_IP" ∨ c = "LTE_IP" ∨ c = "NR_IP" := by
    have := (List.mem_filter.mp hc).1
    simpa using this
  simp only [] at hf
  split at hf
  · injection hf with hf
    subst hf
    rename_i hcond
    rw [Bool.and_assoc, Bool.and_eq_true, Bool.and_eq_true] at hcond
    refine ⟨c, hc3, ?_, ?_, rfl⟩
    · simpa using hcond.1
    · simpa using hcond.2.1
  · exact absurd hf (by simp)

lemma mem_ipEnbErrs {rowNum : Nat} {enb : Cell} {f : ValidationResult}
    (h : f ∈ ipEnbErrs rowNum enb) :
    f.sheet = "IP" ∧ f.row = some rowNum ∧ f.column = some "eNBId" := by
  unfold ipEnbErrs at h
  split at h
  · split at h
    · exact absurd h (by simp)
    · simp only [List.mem_singleton] at h
      subst h
      exact ⟨rfl, rfl, rfl⟩
  · exact absurd h (by simp)

lemma mem_ipRegistryWarns {column : String} {registry : Json} {rowNum : Nat} {s : String}
    {f : ValidationResult} (h : f ∈ ipRegistryWarns column registry rowNum s) :
    f.sheet = "IP" ∧ f.row = some rowNum ∧ f.column = some column ∧
      s ≠ "" ∧ s ≠ "nan" := by
  unfold ipRegistryWarns at h
  split at h
  · rename_i hcond
    rw [Bool.and_eq_true] at hcond
    obtain ⟨nm, -, -, rfl⟩ := mem_filterMap_guard h
    exact ⟨rfl, rfl, rfl, by simpa using hcond.1, by simpa using hcond.2⟩
  · exact absurd h (by simp)

lemma mem_ipRowFindings_es {cols : List String} {mmeCfg amfCfg : Json} {idx : Nat} {r : Row}
    {f : ValidationResult} (h : f ∈ (ipRowFindings cols mmeCfg amfCfg idx r).1) :
    f.sheet = "IP" ∧ f.row = some (idx + 2) := by
  unfold ipRowFindings at h
  rcases List.mem_append.mp h with h | h
  · obtain ⟨c, -, -, -, rfl⟩ := mem_ipAddrErrs h
    exact ⟨rfl, rfl⟩
  · exact ⟨(mem_ipEnbErrs h).1, (mem_ipEnbErrs h).2.1⟩

lemma mem_ipRowFindings_ws {cols : List String} {mmeCfg amfCfg : Json} {idx : Nat} {r : Row}
    {f : ValidationResult} (h : f ∈ (ipRowFindings cols mmeCfg amfCfg idx r).2) :
    f.sheet = "IP" ∧ f.row = some (idx + 2) := by
  unfold ipRowFindings at h
  rcases List.mem_append.mp h with h | h
  · rcases List.mem_append.mp h with h | h
    · exact ⟨(mem_ipNeNameWarns h).1, (mem_ipNeNameWarns h).2.1⟩
    · exact ⟨(mem_ipRegistryWarns h).1, (mem_ipRegistryWarns h).2.1⟩
  · exact ⟨(mem_ipRegistryWarns h).1, (mem_ipRegistryWarns h).2.1⟩

lemma mem_ipRows_es {cols : List String} {mmeCfg amfCfg : Json} {f : ValidationResult} :
    ∀ {k : Nat} {rows : List Row}, f ∈ (ipRows cols mmeCfg amfCfg k rows).1 →
      f.sheet = "IP" ∧ ∃ m, f.row = some m := by
  intro k rows
  induction rows generalizing k with
  | nil => intro h; exact absurd h (by simp [ipRows])
  | cons r0 rs ih =>
    intro h
    rw [ipRows] at h
    rcases List.mem_append.mp h with h | h
    · exact ⟨(mem_ipRowFindings_es h).1, _, (mem_ipRowFindings_es h).2⟩
    · exact ih h

lemma mem_ipRows_ws {cols : List String} {mmeCfg amfCfg : Json} {f : ValidationResult} :
    ∀ {k : Nat} {rows : List Row}, f ∈ (ipRows cols mmeCfg amfCfg k rows).2 →
      f.sheet = "IP" ∧ ∃ m, f.row = some m := by
  intro k rows
  induction rows generalizing k with
  | nil => intro h; exact absurd h (by simp [ipRows])
  | cons r0 rs ih =>
    intro h
    rw [ipRows] at h
    rcases List.mem_append.mp h with h | h
    · exact ⟨(mem_ipRowFindings_ws h).1, _, (mem_ipRowFindings_ws h).2⟩
    · exact ih h

lemma validate_ip_sheet_es_of_present {data : TableSet} {cfg : Config} {df : DataFrame}
    (hdf : data.lookup "IP" = some df) (hne : df.pyEmpty = false) :
    (validate_ip_sheet data cfg).es =
      missingColumnFindings "error" "IP" IP_REQUIRED_COLUMNS df.columns
        (fun c => "Required column '" ++ c ++ "' is missing") ++
      (ipRows df.columns (configGetD cfg "mme") (configGetD cfg "amf") 0 df.rows).1 := by
  unfold validate_ip_sheet
  rw [hdf]
  simp [hne]

lemma validate_ip_sheet_ws_of_present {data : TableSet} {cfg : Config} {df : DataFrame}
    (hdf : data.lookup "IP" = some df) (hne : df.pyEmpty = false) :
    (validate_ip_sheet data cfg).ws =
      (ipRows df.columns (configGetD cfg "mme") (configGetD cfg "amf") 0 df.rows).2 := by
  unfold validate_ip_sheet
  rw [hdf]
  simp [hne]

lemma mem_validate_ip_sheet_es {data : TableSet} {cfg : Config} {f : ValidationResult}
    (h : f ∈ (validate_ip_sheet data cfg).es) : f.sheet = "IP" := by
  unfold validate_ip_sheet at h
  split at h
  · exact absurd h (by simp [PhaseOut.empty])
  · split at h
    · exact absurd h (by simp [PhaseOut.empty])
    · rcases List.mem_append.mp h with h | h
      · obtain ⟨c, -, -, rfl⟩ := mem_missingColumnFindings h
        rfl
      · exact (mem_ipRows_es h).1

lemma mem_validate_ip_sheet_ws {data : TableSet} {cfg : Config} {f : ValidationResult}
    (h : f ∈ (validate_ip_sheet data cfg).ws) :
    f.sheet = "IP" ∧ ∃ m, f.row = some m := by
  unfold validate_ip_sheet at h
  split at h
  · exact absurd h (by simp [PhaseOut.empty])
  · split at h
    · exact absurd h (by simp [PhaseOut.empty])
    · exact mem_ipRows_ws h

/-! ### Lemmas: the Radio 4G sheet phase -/

/-- Whatever the `arfcndl` / `dlChannelBandwidth` coercions do, the errors a
4G row appends are its reference check followed by its `PCI` check. -/
lemma r4Row_es (data : TableSet) (bwm bim hw : Json) (idx : Nat) (r : Row) :
    (r4Row data bwm bim hw idx r).es =
      neRefErrs "Radio 4G" data (idx + 2) (strCell (rowGet r "NE_Name" (Cell.str ""))) ++
      pciErrs4g (idx + 2) (rowGet r "PCI" (Cell.str "")) := by
  unfold r4Row
  dsimp only
  split
  · rfl
  · split <;> rfl

lemma mem_neRefErrs {S : String} {data : TableSet} {rowNum : Nat} {nm : String}
    {f : ValidationResult} (h : f ∈ neRefErrs S data rowNum nm) :
    f = mkErr S (some rowNum) (some "NE_Name")
      ("NE_Name '" ++ nm ++ "' not found in IP sheet") := by
  unfold neRefErrs at h
  split at h
  · split at h
    · split at h
      · split at h
        · exact absurd h (by simp)
        · simpa using h
      · exact absurd h (by simp)
    · exact absurd h (by simp)
  · exact absurd h (by simp)

lemma neRefErrs_absent {S : String} {data : TableSet} {rowNum : Nat} {nm : String}
    {ipDf : DataFrame} (hip : data.lookup "IP" = some ipDf)
    (hcol : ipDf.columns.contains "NE_Name" = true) (hnm : nm ≠ "")
    (habs : containsStr (ipDf.colValues "NE_Name") nm = false) :
    neRefErrs S data rowNum nm =
      [mkErr S (some rowNum) (some "NE_Name")
        ("NE_Name '" ++ nm ++ "' not found in IP sheet")] := by
  unfold neRefErrs
  rw [hip]
  simp [hnm, habs]
  simpa using hcol

lemma neRefErrs_of_no_ip {S : String} {data : TableSet} {rowNum : Nat} {nm : String}
    (hip : data.lookup "IP" = none) : neRefErrs S data rowNum nm = [] := by
  unfold neRefErrs
  rw [hip]
  split <;> rfl

lemma mem_pciErrs4g {rowNum : Nat} {pci : Cell} {f : ValidationResult}
    (h : f ∈ pciErrs4g rowNum pci) :
    f.level = "error" ∧ f.sheet = "Radio 4G" ∧ f.row = some rowNum ∧
      f.column = some "PCI" := by
  unfold pciErrs4g at h
  split at h
  · split at h
    · split at h
      · simp only [List.mem_singleton] at h
        subst h
        exact ⟨rfl, rfl, rfl, rfl⟩
      · exact absurd h (by simp)
    · simp only [List.mem_singleton] at h
      subst h
      exact ⟨rfl, rfl, rfl, rfl⟩
  · exact absurd h (by simp)

lemma mem_arfcnCheck {bim : Json} {rowNum : Nat} {arfcn : Cell} {l : List ValidationResult}
    {f : ValidationResult} (hok : arfcnCheck bim rowNum arfcn = .ok l) (h : f ∈ l) :
    f.sheet = "Radio 4G" ∧ f.row = some rowNum ∧ f.column = some "arfcndl" := by
  unfold arfcnCheck at hok
  split at hok
  · split at hok
    · injection hok with hok
      subst hok
      split at h
      · exact absurd h (by simp)
      · simp only [List.mem_singleton] at h
        subst h
        exact ⟨rfl, rfl, rfl⟩
    · exact absurd hok (by simp)
  · injection hok with hok
    subst hok
    exact absurd h (by simp)

lemma mem_rruWarns {hw : Json} {rowNum : Nat} {rru : String} {f : ValidationResult}
    (h : f ∈ rruWarns hw rowNum rru) :
    f.sheet = "Radio 4G" ∧ f.row = some rowNum ∧ f.column = some "RRUname" ∧
      rru ≠ "" ∧ rru ≠ "nan" := by
  unfold rruWarns at h
  split at h
  · rename_i hcond
    rw [Bool.and_assoc, Bool.and_eq_true, Bool.and_eq_true] at hcond
    simp only [List.mem_singleton] at h
    subst h
    exact ⟨rfl, rfl, rfl, by simpa using hcond.1, by simpa using hcond.2.1⟩
  · exact absurd h (by simp)

lemma mem_bwCheck {bwm : Json} {rowNum : Nat} {bw : Cell} {l : List ValidationResult}
    {f : ValidationResult} (hok : bwCheck bwm rowNum bw = .ok l) (h : f ∈ l) :
    f.sheet = "Radio 4G" ∧ f.row = some rowNum ∧ f.column = some "dlChannelBandwidth" := by
  unfold bwCheck at hok
  split at hok
  · split at hok
    · injection hok with hok
      subst hok
      split at h
      · exact absurd h (by simp)
      · simp only [List.mem_singleton] at h
        subst h
        exact ⟨rfl, rfl, rfl⟩
    · exact absurd hok (by simp)
  · injection hok with hok
    subst hok
    exact absurd h (by simp)

lemma mem_r4Row_es {data : TableSet} {bwm bim hw : Json} {idx : Nat} {r : Row}
    {f : ValidationResult} (h : f ∈ (r4Row data bwm bim hw idx r).es) :
    f.sheet = "Radio 4G" ∧ f.row = some (idx + 2) ∧
      (f.column = some "NE_Name" ∨ f.column = some "PCI") := by
  rw [r4Row_es] at h
  rcases List.mem_append.mp h with h | h
  · have := mem_neRefErrs h
    subst this
    exact ⟨rfl, rfl, Or.inl rfl⟩
  · have := mem_pciErrs4g h
    exact ⟨this.2.1, this.2.2.1, Or.inr this.2.2.2⟩

lemma mem_r4Row_ws {data : TableSet} {bwm bim hw : Json} {idx : Nat} {r : Row}
    {f : ValidationResult} (h : f ∈ (r4Row data bwm bim hw idx r).ws) :
    f.sheet = "Radio 4G" ∧ f.row = some (idx + 2) ∧
      (f.column = some "arfcndl" ∨
        (f.column = some "RRUname" ∧
          strCell (rowGet r "RRUname" (Cell.str "")) ≠ "" ∧
          strCell (rowGet r "RRUname" (Cell.str "")) ≠ "nan") ∨
        f.column = some "dlChannelBandwidth") := by
  unfold r4Row at h
  dsimp only at h
  split at h
  · exact absurd h (by simp)
  · rename_i arfW harf
    split at h
    · rcases List.mem_append.mp h with h | h
      · have := mem_arfcnCheck harf h
        exact ⟨this.1, this.2.1, Or.inl this.2.2⟩
      · have := mem_rruWarns h
        exact ⟨this.1, this.2.1, Or.inr (Or.inl ⟨this.2.2.1, this.2.2.2⟩)⟩
    · rename_i bwW hbw
      rcases List.mem_append.mp h with h | h
      · rcases List.mem_append.mp h with h | h
        · have := mem_arfcnCheck harf h
          exact ⟨this.1, this.2.1, Or.inl this.2.2⟩
        · have := mem_rruWarns h
          exact ⟨this.1, this.2.1, Or.inr (Or.inl ⟨this.2.2.1, this.2.2.2⟩)⟩
      · have := mem_bwCheck hbw h
        exact ⟨this.1, this.2.1, Or.inr (Or.inr this.2.2)⟩

/-! ### Lemmas: the 4G and 5G row loops -/

lemma mem_r4Rows_es {data : TableSet} {bwm bim hw : Json} {f : ValidationResult} :
    ∀ {k : Nat} {rows : List Row}, f ∈ (r4Rows data bwm bim hw k rows).es →
      f.sheet = "Radio 4G" ∧ ∃ m, f.row = some m := by
  intro k rows
  induction rows generalizing k with
  | nil => intro h; exact absurd h (by simp [r4Rows, PhaseOut.empty])
  | cons r0 rs ih =>
    intro h
    rw [r4Rows] at h
    cases he : (r4Row data bwm bim hw k r0).exn with
    | none =>
      rw [seq_es_of_none he] at h
      rcases List.mem_append.mp h with h | h
      · exact ⟨(mem_r4Row_es h).1, _, (mem_r4Row_es h).2.1⟩
      · exact ih h
    | some e =>
      have hseq : (r4Row data bwm bim hw k r0).seq (r4Rows data bwm bim hw (k + 1) rs) =
          r4Row data bwm bim hw k r0 := by
        unfold PhaseOut.seq
        rw [he]
      rw [hseq] at h
      exact ⟨(mem_r4Row_es h).1, _, (mem_r4Row_es h).2.1⟩

lemma mem_r4Rows_ws {data : TableSet} {bwm bim hw : Json} {f : ValidationResult} :
    ∀ {k : Nat} {rows : List Row}, f ∈ (r4Rows data bwm bim hw k rows).ws →
      f.sheet = "Radio 4G" ∧ (∃ m, f.row = some m) ∧
        (f.column = some "arfcndl" ∨ f.column = some "RRUname" ∨
          f.column = some "dlChannelBandwidth") := by
  intro k rows
  induction rows generalizing k with
  | nil => intro h; exact absurd h (by simp [r4Rows, PhaseOut.empty])
  | cons r0 rs ih =>
    intro h
    rw [r4Rows] at h
    cases he : (r4Row data bwm bim hw k r0).exn with
    | none =>
      rw [seq_ws_of_none he] at h
      rcases List.mem_append.mp h with h | h
      · refine ⟨(mem_r4Row_ws h).1, ⟨_, (mem_r4Row_ws h).2.1⟩, ?_⟩
        rcases (mem_r4Row_ws h).2.2 with h2 | h2 | h2
        · exact Or.inl h2
        · exact Or.inr (Or.inl h2.1)
        · exact Or.inr (Or.inr h2)
      · exact ih h
    | some e =>
      have hseq : (r4Row data bwm bim hw k r0).seq (r4Rows data bwm bim hw (k + 1) rs) =
          r4Row data bwm bim hw k r0 := by
        unfold PhaseOut.seq
        rw [he]
      rw [hseq] at h
      refine ⟨(mem_r4Row_ws h).1, ⟨_, (mem_r4Row_ws h).2.1⟩, ?_⟩
      rcases (mem_r4Row_ws h).2.2 with h2 | h2 | h2
      · exact Or.inl h2
      · exact Or.inr (Or.inl h2.1)
      · exact Or.inr (Or.inr h2)

lemma r4Rows_filter_nil_lt {data : TableSet} {bwm bim hw : Json}
    {p0 : ValidationResult → Bool} {m : Nat} :
    ∀ {k : Nat} {rows : List Row}, m < k →
      ((r4Rows data bwm bim hw k rows).es.filter
        (fun f => (f.row == some (m + 2)) && p0 f)) = [] := by
  intro k rows
  induction rows generalizing k with
  | nil => intro _; rfl
  | cons r0 rs ih =>
    intro hm
    rw [r4Rows]
    have hhead : (r4Row data bwm bim hw k r0).es.filter
        (fun f => (f.row == some (m + 2)) && p0 f) = [] := by
      apply filter_eq_nil_of_shape
      intro f hf
      have hr := (mem_r4Row_es hf).2.1
      have hb : ((some (k + 2) : Option Nat) == some (m + 2)) = false := by
        simp
        omega
      simp [hr, hb]
    cases he : (r4Row data bwm bim hw k r0).exn with
    | none =>
      rw [seq_es_of_none he, List.filter_append, hhead, List.nil_append]
      exact ih (by omega)
    | some e =>
      have hseq : (r4Row data bwm bim hw k r0).seq (r4Rows data bwm bim hw (k + 1) rs) =
          r4Row data bwm bim hw k r0 := by
        unfold PhaseOut.seq
        rw [he]
      rw [hseq]
      exact hhead

lemma r4Rows_filter_row {data : TableSet} {bwm bim hw : Json}
    {p0 : ValidationResult → Bool} :
    ∀ {k : Nat} {rows : List Row} {i : Nat} {r : Row}, rows[i]? = some r →
      (r4Rows data bwm bim hw k rows).exn = none →
      ((r4Rows data bwm bim hw k rows).es.filter
        (fun f => (f.row == some (k + i + 2)) && p0 f)) =
      ((r4Row data bwm bim hw (k + i) r).es.filter
        (fun f => (f.row == some (k + i + 2)) && p0 f)) := by
  intro k rows
  induction rows generalizing k with
  | nil => intro i r hi; exact absurd hi (by simp)
  | cons r0 rs ih =>
    intro i r hi hexn
    rw [r4Rows] at hexn ⊢
    obtain ⟨he0, het⟩ := seq_exn_none hexn
    rw [seq_es_of_none he0, List.filter_append]
    cases i with
    | zero =>
      rw [List.getElem?_cons_zero] at hi
      injection hi with hi
      subst hi
      have htail : (r4Rows data bwm bim hw (k + 1) rs).es.filter
          (fun f => (f.row == some (k + 0 + 2)) && p0 f) = [] := by
        have := @r4Rows_filter_nil_lt data bwm bim hw p0 k (k + 1) rs (by omega)
        simpa using this
      rw [htail, List.append_nil]
      simp
    | succ j =>
      rw [List.getElem?_cons_succ] at hi
      have hhead : (r4Row data bwm bim hw k r0).es.filter
          (fun f => (f.row == some (k + (j + 1) + 2)) && p0 f) = [] := by
        apply filter_eq_nil_of_shape
        intro f hf
        have hr := (mem_r4Row_es hf).2.1
        have hb : ((some (k + 2) : Option Nat) == some (k + (j + 1) + 2)) = false := by
          simp
        simp [hr, hb]
      rw [hhead, List.nil_append]
      have harith : k + (j + 1) = (k + 1) + j := by omega
      rw [harith]
      exact ih hi het

lemma mem_r5Row {data : TableSet} {idx : Nat} {r : Row} {f : ValidationResult}
    (h : f ∈ r5Row data idx r) :
    f.sheet = "Radio 5G" ∧ f.row = some (idx + 2) ∧
      (f.column = some "NE_Name" ∨ f.column = some "nRPCI") := by
  unfold r5Row at h
  rcases List.mem_append.mp h with h | h
  · have := mem_neRefErrs h
    subst this
    exact ⟨rfl, rfl, Or.inl rfl⟩
  · unfold pciErrs5g at h
    split at h
    · split at h
      · split at h
        · simp only [List.mem_singleton] at h
          subst h
          exact ⟨rfl, rfl, Or.inr rfl⟩
        · exact absurd h (by simp)
      · simp only [List.mem_singleton] at h
        subst h
        exact ⟨rfl, rfl, Or.inr rfl⟩
    · exact absurd h (by simp)

lemma mem_r5Rows {data : TableSet} {f : ValidationResult} :
    ∀ {k : Nat} {rows : List Row}, f ∈ r5Rows data k rows →
      f.sheet = "Radio 5G" ∧ (∃ m, f.row = some m) ∧
        (f.column = some "NE_Name" ∨ f.column = some "nRPCI") := by
  intro k rows
  induction rows generalizing k with
  | nil => intro h; exact absurd h (by simp [r5Rows])
  | cons r0 rs ih =>
    intro h
    rw [r5Rows] at h
    rcases List.mem_append.mp h with h | h
    · exact ⟨(mem_r5Row h).1, ⟨_, (mem_r5Row h).2.1⟩, (mem_r5Row h).2.2⟩
    · exact ih h

lemma r5Rows_filter_nil_lt {data : TableSet} {p0 : ValidationResult → Bool} {m : Nat} :
    ∀ {k : Nat} {rows : List Row}, m < k →
      ((r5Rows data k rows).filter (fun f => (f.row == some (m + 2)) && p0 f)) = [] := by
  intro k rows
  induction rows generalizing k with
  | nil => intro _; rfl
  | cons r0 rs ih =>
    intro hm
    rw [r5Rows, List.filter_append]
    have hhead : (r5Row data k r0).filter (fun f => (f.row == some (m + 2)) && p0 f) = [] := by
      apply filter_eq_nil_of_shape
      intro f hf
      have hr := (mem_r5Row hf).2.1
      have hb : ((some (k + 2) : Option Nat) == some (m + 2)) = false := by
        simp
        omega
      simp [hr, hb]
    rw [hhead, List.nil_append]
    exact ih (by omega)

lemma r5Rows_filter_row {data : TableSet} {p0 : ValidationResult → Bool} :
    ∀ {k : Nat} {rows : List Row} {i : Nat} {r : Row}, rows[i]? = some r →
      ((r5Rows data k rows).filter (fun f => (f.row == some (k + i + 2)) && p0 f)) =
      ((r5Row data (k + i) r).filter (fun f => (f.row == some (k + i + 2)) && p0 f)) := by
  intro k rows
  induction rows generalizing k with
  | nil => intro i r hi; exact absurd hi (by simp)
  | cons r0 rs ih =>
    intro i r hi
    rw [r5Rows, List.filter_append]
    cases i with
    | zero =>
      rw [List.getElem?_cons_zero] at hi
      injection hi with hi
      subst hi
      have htail : (r5Rows data (k + 1) rs).filter
          (fun f => (f.row == some (k + 0 + 2)) && p0 f) = [] := by
        have := @r5Rows_filter_nil_lt data p0 k (k + 1) rs (by omega)
        simpa using this
      rw [htail, List.append_nil]
      simp
    | succ j =>
      rw [List.getElem?_cons_succ] at hi
      have hhead : (r5Row data k r0).filter
          (fun f => (f.row == some (k + (j + 1) + 2)) && p0 f) = [] := by
        apply filter_eq_nil_of_shape
        intro f hf
        have hr := (mem_r5Row hf).2.1
        have hb : ((some (k + 2) : Option Nat) == some (k + (j + 1) + 2)) = false := by
          simp
        simp [hr, hb]
      rw [hhead, List.nil_append]
      have harith : k + (j + 1) = (k + 1) + j := by omega
      rw [harith]
      exact ih hi

/-! ### Lemmas: structure of the 4G and 5G phases -/

lemma validate_radio_4g_sheet_es_of_present {data : TableSet} {cfg : Config} {df : DataFrame}
    (hdf : data.lookup "Radio 4G" = some df) (hne : df.pyEmpty = false) :
    (validate_radio_4g_sheet data cfg).es =
      missingColumnFindings "error" "Radio 4G" RADIO_4G_REQUIRED_COLUMNS df.columns
        (fun c => "Required column '" ++ c ++ "' is missing") ++
      (r4Rows data (((configGetD cfg "SPU").getD "V1.70.26").getD "bandwidth_mapping")
        (((configGetD cfg "SPU").getD "V1.70.26").getD "bandIndicator_mapping")
        (((configGetD cfg "SPU").getD "V1.70.26").getD "hwWorkScence_mapping") 0 df.rows).es := by
  unfold validate_radio_4g_sheet
  rw [hdf]
  simp only [hne, Bool.false_eq_true, if_false]
  rw [seq_es_of_none rfl]

lemma validate_radio_4g_sheet_ws_of_present {data : TableSet} {cfg : Config} {df : DataFrame}
    (hdf : data.lookup "Radio 4G" = some df) (hne : df.pyEmpty = false) :
    (validate_radio_4g_sheet data cfg).ws =
      (r4Rows data (((configGetD cfg "SPU").getD "V1.70.26").getD "bandwidth_mapping")
        (((configGetD cfg "SPU").getD "V1.70.26").getD "bandIndicator_mapping")
        (((configGetD cfg "SPU").getD "V1.70.26").getD "hwWorkScence_mapping") 0 df.rows).ws := by
  unfold validate_radio_4g_sheet
  rw [hdf]
  simp only [hne, Bool.false_eq_true, if_false]
  rw [seq_ws_of_none rfl]
  rfl

lemma validate_radio_4g_sheet_exn_of_present {data : TableSet} {cfg : Config} {df : DataFrame}
    (hdf : data.lookup "Radio 4G" = some df) (hne : df.pyEmpty = false) :
    (validate_radio_4g_sheet data cfg).exn =
      (r4Rows data (((configGetD cfg "SPU").getD "V1.70.26").getD "bandwidth_mapping")
        (((configGetD cfg "SPU").getD "V1.70.26").getD "bandIndicator_mapping")
        (((configGetD cfg "SPU").getD "V1.70.26").getD "hwWorkScence_mapping") 0 df.rows).exn := by
  unfold validate_radio_4g_sheet
  rw [hdf]
  simp only [hne, Bool.false_eq_true, if_false]
  rw [seq_exn_of_none rfl]

lemma mem_validate_radio_4g_sheet_es {data : TableSet} {cfg : Config} {f : ValidationResult}
    (h : f ∈ (validate_radio_4g_sheet data cfg).es) :
    f.sheet = "Radio 4G" := by
  unfold validate_radio_4g_sheet at h
  split at h
  · exact absurd h (by simp [PhaseOut.empty])
  · split at h
    · exact absurd h (by simp [PhaseOut.empty])
    · rw [seq_es_of_none rfl] at h
      rcases List.mem_append.mp h with h | h
      · obtain ⟨c, -, -, rfl⟩ := mem_missingColumnFindings h
        rfl
      · exact (mem_r4Rows_es h).1

lemma mem_validate_radio_4g_sheet_ws {data : TableSet} {cfg : Config} {f : ValidationResult}
    (h : f ∈ (validate_radio_4g_sheet data cfg).ws) :
    f.sheet = "Radio 4G" ∧ ∃ m, f.row = some m := by
  unfold validate_radio_4g_sheet at h
  split at h
  · exact absurd h (by simp [PhaseOut.empty])
  · split at h
    · exact absurd h (by simp [PhaseOut.empty])
    · rw [seq_ws_of_none rfl] at h
      dsimp only at h
      rw [List.nil_append] at h
      exact ⟨(mem_r4Rows_ws h).1, (mem_r4Rows_ws h).2.1⟩

lemma validate_radio_5g_sheet_es_of_present {data : TableSet} {df : DataFrame}
    (hdf : data.lookup "Radio 5G" = some df) (hne : df.pyEmpty = false) :
    (validate_radio_5g_sheet data).es = r5Rows data 0 df.rows := by
  unfold validate_radio_5g_sheet
  rw [hdf]
  simp [hne]

lemma validate_radio_5g_sheet_ws_of_present {data : TableSet} {df : DataFrame}
    (hdf : data.lookup "Radio 5G" = some df) (hne : df.pyEmpty = false) :
    (validate_radio_5g_sheet data).ws =
      missingColumnFindings "warning" "Radio 5G" RADIO_5G_REQUIRED_COLUMNS df.columns
        (fun c => "Expected column '" ++ c ++ "' is missing") := by
  unfold validate_radio_5g_sheet
  rw [hdf]
  simp [hne]

lemma mem_validate_radio_5g_sheet_es {data : TableSet} {f : ValidationResult}
    (h : f ∈ (validate_radio_5g_sheet data).es) :
    f.sheet = "Radio 5G" ∧ ∃ m, f.row = some m := by
  unfold validate_radio_5g_sheet at h
  split at h
  · exact absurd h (by simp [PhaseOut.empty])
  · split at h
    · exact absurd h (by simp [PhaseOut.empty])
    · exact ⟨(mem_r5Rows h).1, (mem_r5Rows h).2.1⟩

lemma mem_validate_radio_5g_sheet_ws {data : TableSet} {f : ValidationResult}
    (h : f ∈ (validate_radio_5g_sheet data).ws) :
    f.sheet = "Radio 5G" ∧ f.row = none := by
  unfold validate_radio_5g_sheet at h
  split at h
  · exact absurd h (by simp [PhaseOut.empty])
  · split at h
    · exact absurd h (by simp [PhaseOut.empty])
    · obtain ⟨c, -, -, rfl⟩ := mem_missingColumnFindings h
      exact ⟨rfl, rfl⟩

/-! ### Lemmas: filter-vanishing helpers for the claim selectors -/

lemma filter_colMissing_nil_sheet {l : List ValidationResult} {S c : String}
    (h : ∀ f ∈ l, f.sheet ≠ S) : l.filter (colMissingPred S c) = [] :=
  filter_eq_nil_of_shape fun f hf => by simp [colMissingPred, h f hf]

lemma filter_colMissing_nil_row {l : List ValidationResult} {S c : String}
    (h : ∀ f ∈ l, ∃ m, f.row = some m) : l.filter (colMissingPred S c) = [] :=
  filter_eq_nil_of_shape fun f hf => by
    obtain ⟨m, hm⟩ := h f hf
    simp [colMissingPred, hm]

lemma filter_colMissing_nil_col {l : List ValidationResult} {S c : String}
    (h : ∀ f ∈ l, f.column = none) : l.filter (colMissingPred S c) = [] :=
  filter_eq_nil_of_shape fun f hf => by simp [colMissingPred, h f hf]

lemma filter_rowCol_nil_sheet {l : List ValidationResult} {S c : String} {n : Nat}
    (h : ∀ f ∈ l, f.sheet ≠ S) : l.filter (rowColPred S c n) = [] :=
  filter_eq_nil_of_shape fun f hf => by simp [rowColPred, h f hf]

lemma filter_rowCol_nil_rownone {l : List ValidationResult} {S c : String} {n : Nat}
    (h : ∀ f ∈ l, f.row = none) : l.filter (rowColPred S c n) = [] :=
  filter_eq_nil_of_shape fun f hf => by simp [rowColPred, h f hf]

lemma filter_rowCol_nil_colnone {l : List ValidationResult} {S c : String} {n : Nat}
    (h : ∀ f ∈ l, f.column = none) : l.filter (rowColPred S c n) = [] :=
  filter_eq_nil_of_shape fun f hf => by simp [rowColPred, h f hf]

/-! ### Lemmas: unconditional membership through `seq` and the no-IP case -/

lemma mem_seq_es {a b : PhaseOut} {f : ValidationResult} (h : f ∈ (a.seq b).es) :
    f ∈ a.es ∨ f ∈ b.es := by
  cases ha : a.exn with
  | none =>
    rw [seq_es_of_none ha] at h
    exact List.mem_append.mp h
  | some e =>
    have hseq : a.seq b = a := by unfold PhaseOut.seq; rw [ha]
    rw [hseq] at h
    exact Or.inl h

/-- With no IP sheet in the input, a 4G row can only report on its `PCI`
column. -/
lemma mem_r4Rows_es_no_ip {data : TableSet} {bwm bim hw : Json} {f : ValidationResult}
    (hip : data.lookup "IP" = none) :
    ∀ {k : Nat} {rows : List Row}, f ∈ (r4Rows data bwm bim hw k rows).es →
      f.column = some "PCI" := by
  intro k rows
  induction rows generalizing k with
  | nil => intro h; exact absurd h (by simp [r4Rows, PhaseOut.empty])
  | cons r0 rs ih =>
    intro h
    rw [r4Rows] at h
    rcases mem_seq_es h with h | h
    · rw [r4Row_es, neRefErrs_of_no_ip hip, List.nil_append] at h
      exact (mem_pciErrs4g h).2.2.2
    · exact ih h

/-- With no IP sheet in the input, a 5G row can only report on its `nRPCI`
column. -/
lemma mem_r5Rows_no_ip {data : TableSet} {f : ValidationResult}
    (hip : data.lookup "IP" = none) :
    ∀ {k : Nat} {rows : List Row}, f ∈ r5Rows data k rows →
      f.column = some "nRPCI" := by
  intro k rows
  induction rows generalizing k with
  | nil => intro h; exact absurd h (by simp [r5Rows])
  | cons r0 rs ih =>
    intro h
    rw [r5Rows] at h
    rcases List.mem_append.mp h with h | h
    · unfold r5Row at h
      dsimp only at h
      rw [neRefErrs_of_no_ip hip, List.nil_append] at h
      unfold pciErrs5g at h
      split at h
      · split at h
        · split at h
          · simp only [List.mem_singleton] at h
            subst h
            rfl
          · exact absurd h (by simp)
        · simp only [List.mem_singleton] at h
          subst h
          rfl
      · exact absurd h (by simp)
    · exact ih h

lemma validate_config_references_es (cfg : Config) :
    (validate_config_references cfg).es =
      REQUIRED_CONFIG_SECTIONS.filterMap (fun s =>
        if (cfg.lookup s).isSome then none
        else some (mkErr "config.json" none none
          ("Required section '" ++ s ++ "' is missing from config.json"))) := rfl

/-! ### Concrete fixtures used by counterexamples and witnesses -/

/-- A well-formed config with every section and mapping entry present. -/
def cfgGood : Config :=
  [("mcc", Json.leaf), ("mnc", Json.leaf), ("province", Json.leaf),
   ("mme", Json.obj [("MME1", Json.leaf)]),
   ("amf", Json.obj [("AMF1", Json.leaf)]),
   ("SPU", Json.obj [("V1.70.26", Json.obj
     [("bandwidth_mapping", Json.obj [("10.0", Json.leaf)]),
      ("bandIndicator_mapping", Json.obj [("1300", Json.leaf)]),
      ("hwWorkScence_mapping", Json.obj [("RRU1", Json.leaf)])])])]

/-- An IP sheet with one fully valid row for element `gCM00025Z`. -/
def ipDfGood : DataFrame :=
  ⟨["NE_Name", "eNBId", "OAM_IP", "OAM_Gateway", "LTE_IP", "LTE_Gateway"],
   [[("NE_Name", Cell.str "gCM00025Z"), ("eNBId", Cell.int 100),
     ("OAM_IP", Cell.str "10.0.0.1"), ("OAM_Gateway", Cell.str "10.0.0.2"),
     ("LTE_IP", Cell.str "10.0.0.3"), ("LTE_Gateway", Cell.str "10.0.0.4")]]⟩

/-- A fully valid 4G row for element `gCM00025Z`. -/
def r4RowGood : Row :=
  [("NE_Name", Cell.str "gCM00025Z"), ("CellName", Cell.str "c1"),
   ("cellId", Cell.int 1), ("PCI", Cell.int 7), ("TAC", Cell.int 1),
   ("arfcndl", Cell.int 1300), ("dlChannelBandwidth", Cell.num ⟨10, 0⟩),
   ("RRU", Cell.str "r"), ("RRUname", Cell.str "RRU1"), ("rruPort", Cell.int 1)]

/-- `r4RowGood` with the cell of column `c` overridden to `v` (a pandas row
lookup finds the first matching key). -/
def r4RowWith (c : String) (v : Cell) : Row :=
  (c, v) :: r4RowGood

/-- A one-row 4G sheet whose cell at column `c` is `v`, otherwise valid. -/
def r4DfWith (c : String) (v : Cell) : DataFrame :=
  ⟨RADIO_4G_REQUIRED_COLUMNS, [r4RowWith c v]⟩

/-- A TableSet with a good IP sheet and a one-row 4G sheet overridden at
column `c`. -/
def dataWith4g (c : String) (v : Cell) : TableSet :=
  [("IP", ipDfGood), ("Radio 4G", r4DfWith c v)]

/-- A fully valid TableSet: good IP sheet, good one-row 4G sheet. -/
def dataGood : TableSet :=
  [("IP", ipDfGood), ("Radio 4G", ⟨RADIO_4G_REQUIRED_COLUMNS, [r4RowGood]⟩)]

/-! ### C1 -/

/-- C1: the spec says a config-load failure is contained: one Error Finding
on a synthetic "config" sheet, `validate()` still runs and returns it, all
rule groups running against an empty config.  The code disagrees: in
`__init__` the load-failure handler executes `self.errors.append(...)`
before `self.errors` has been assigned (it is assigned on the next line of
`__init__`), so construction raises `AttributeError` and `validate()` never
runs; and even with an `errors` attribute in place, `validate()` starts by
clearing `self.errors`, so a load finding recorded at construction time
would not be among its results (second conjunct: the accumulators' prior
content never influences `validate()`).  This theorem documents the code
bug by evaluating the embedded `__init__` on any failing load. -/
theorem C1_config_load_failure_raises :
    (∀ (data : TableSet) (cause : String),
      CDDValidator.init data (.error cause) =
        .error (.attributeError "'CDDValidator' object has no attribute 'errors'")) ∧
    (∀ (data : TableSet) (cfg : Config) (es ws : List ValidationResult),
      (CDDValidator.mk data cfg es ws).validate = (CDDValidator.mk data cfg [] []).validate) := by
  constructor
  · intro data cause
    rfl
  · intro data cfg es ws
    cases h : (validateFindings data cfg).exn <;>
      simp [CDDValidator.validate, h]

/-! ### C2 -/

/-- C2: the spec says a cell that cannot be parsed as the expected numeric
type never raises — including the `arfcndl` and `dlChannelBandwidth` fields
of the Radio 4G sheet — but emits an Error and processing continues.  The
code disagrees: `str(int(float(arfcn_dl)))` and `str(float(dl_bw))` are not
wrapped in try/except, so one bad cell in either field makes `validate()`
raise `ValueError` and abandon the run (while `PCI`, `nRPCI` and `eNBId`
coercions are guarded).  This theorem documents the code bug by evaluating
`validate()` on two otherwise valid inputs. -/
theorem C2_unguarded_coercion_raises :
    ((CDDValidator.mk (dataWith4g "arfcndl" (Cell.str "abc")) cfgGood [] []).validate).2 =
      .error (.valueError "could not convert string to float: 'abc'") ∧
    ((CDDValidator.mk (dataWith4g "dlChannelBandwidth" (Cell.str "xyz")) cfgGood [] []).validate).2 =
      .error (.valueError "could not convert string to float: 'xyz'") := by
  exact ⟨by decide, by decide⟩

/-! ### C7 -/

/-- C7: `validate()` is deterministic and idempotent: calling it again on
the object returned by a first call (identical, unmodified data and config)
produces the identical object and the identical rendered error/warning
lists (and the identical exception, when one is raised). -/
theorem C7_validate_idempotent (v : CDDValidator) :
    CDDValidator.validate (CDDValidator.validate v).1 = CDDValidator.validate v := by
  cases h : (validateFindings v.data v.config).exn <;>
    simp [CDDValidator.validate, h]

/-! ### C8 -/

/-- C8 counterexample: the claim says `validate()` returns the two ordered
Finding collections for every input, but on this input (a non-numeric
`dlChannelBandwidth` cell) it raises instead of returning them. -/
theorem C8_counterexample_raises :
    ((CDDValidator.mk (dataWith4g "dlChannelBandwidth" (Cell.str "bad")) cfgGood [] []).validate).2 =
      .error (.valueError "could not convert string to float: 'bad'") := by
  decide

/-- C8 (amended): `validate()` mutates neither the TableSet nor the loaded
config — the returned object carries exactly the input data and config —
and, whenever no unguarded numeric coercion raises (see C2), it returns the
two ordered finding collections, rendered in order. -/
theorem C8_no_mutation (v : CDDValidator) :
    ((CDDValidator.validate v).1.data = v.data ∧
      (CDDValidator.validate v).1.config = v.config) ∧
    (∀ es ws, (CDDValidator.validate v).2 = .ok (es, ws) →
      es = (validateFindings v.data v.config).es.map ValidationResult.render ∧
      ws = (validateFindings v.data v.config).ws.map ValidationResult.render) := by
  constructor
  · cases h : (validateFindings v.data v.config).exn <;>
      simp [CDDValidator.validate, h]
  · intro es ws hok
    cases h : (validateFindings v.data v.config).exn with
    | none =>
      simp only [CDDValidator.validate, h] at hok
      injection hok with hok
      injection hok with h1 h2
      exact ⟨h1.symm, h2.symm⟩
    | some e =>
      simp only [CDDValidator.validate, h] at hok
      exact absurd hok (by simp)

/-- C8 witness: on the fully valid fixture the run raises nothing, the
returned object carries the input tables unchanged, and the returned error
strings are the empty rendering of an empty error list. -/
theorem C8_no_mutation_witness :
    (CDDValidator.validate ⟨dataGood, cfgGood, [], []⟩).1.data = dataGood ∧
    ([] : List String) = (validateFindings dataGood cfgGood).es.map ValidationResult.render := by
  refine ⟨((C8_no_mutation ⟨dataGood, cfgGood, [], []⟩).1).1, ?_⟩
  exact ((C8_no_mutation ⟨dataGood, cfgGood, [], []⟩).2 []
    ((validateFindings dataGood cfgGood).ws.map ValidationResult.render) (by decide)).1

/-! ### Per-column filter helpers for the row processors -/

lemma neRefErrs_filter_colPred_nil {S : String} {data : TableSet} {rowNum : Nat}
    {nm c : String} (hc : c ≠ "NE_Name") :
    (neRefErrs S data rowNum nm).filter (colPred c) = [] :=
  filter_eq_nil_of_shape fun f hf => by
    have := mem_neRefErrs hf
    subst this
    simp [colPred, mkErr, Ne.symm hc]

lemma pciErrs4g_filter_colPred_nil {rowNum : Nat} {pci : Cell} {c : String}
    (hc : c ≠ "PCI") : (pciErrs4g rowNum pci).filter (colPred c) = [] :=
  filter_eq_nil_of_shape fun f hf => by
    have := (mem_pciErrs4g hf).2.2.2
    simp [colPred, this, Ne.symm hc]

lemma r4Row_ws_filter_colPred_nil {data : TableSet} {bwm bim hw : Json} {idx : Nat}
    {r : Row} {c : String} (h1 : c ≠ "arfcndl") (h2 : c ≠ "RRUname")
    (h3 : c ≠ "dlChannelBandwidth") :
    (r4Row data bwm bim hw idx r).ws.filter (colPred c) = [] :=
  filter_eq_nil_of_shape fun f hf => by
    rcases (mem_r4Row_ws hf).2.2 with h | h | h
    · simp [colPred, h, Ne.symm h1]
    · simp [colPred, h.1, Ne.symm h2]
    · simp [colPred, h, Ne.symm h3]

lemma r4Row_ws_filter_rru_nil {data : TableSet} {bwm bim hw : Json} {idx : Nat} {r : Row}
    (h : strCell (rowGet r "RRUname" (Cell.str "")) = "nan" ∨
         strCell (rowGet r "RRUname" (Cell.str "")) = "") :
    (r4Row data bwm bim hw idx r).ws.filter (colPred "RRUname") = [] :=
  filter_eq_nil_of_shape fun f hf => by
    rcases (mem_r4Row_ws hf).2.2 with h2 | h2 | h2
    · simp [colPred, h2]
    · rcases h with h | h
      · exact absurd h h2.2.2
      · exact absurd h h2.2.1
    · simp [colPred, h2]

/-! ### C4 -/

/-- C4: the PCI bounds are the inclusive range 0-503 and the nRPCI bounds
the inclusive range 0-1007: on any 4G row, PCI 0 and 503 contribute no
finding at that row's PCI column while -1 and 504 each contribute exactly
one range Error there; on any 5G row, nRPCI 0 and 1007 pass while 1008
yields exactly one range Error. -/
theorem C4_pci_range_bounds :
    (∀ (data : TableSet) (bwm bim hw : Json) (idx : Nat) (r : Row),
      rowGet r "PCI" (Cell.str "") = Cell.int 0 →
        (r4Row data bwm bim hw idx r).es.filter (colPred "PCI") = [] ∧
        (r4Row data bwm bim hw idx r).ws.filter (colPred "PCI") = []) ∧
    (∀ (data : TableSet) (bwm bim hw : Json) (idx : Nat) (r : Row),
      rowGet r "PCI" (Cell.str "") = Cell.int 503 →
        (r4Row data bwm bim hw idx r).es.filter (colPred "PCI") = [] ∧
        (r4Row data bwm bim hw idx r).ws.filter (colPred "PCI") = []) ∧
    (∀ (data : TableSet) (bwm bim hw : Json) (idx : Nat) (r : Row),
      rowGet r "PCI" (Cell.str "") = Cell.int (-1) →
        (r4Row data bwm bim hw idx r).es.filter (colPred "PCI") =
          [mkErr "Radio 4G" (some (idx + 2)) (some "PCI") "PCI -1 is out of range (0-503)"] ∧
        (r4Row data bwm bim hw idx r).ws.filter (colPred "PCI") = []) ∧
    (∀ (data : TableSet) (bwm bim hw : Json) (idx : Nat) (r : Row),
      rowGet r "PCI" (Cell.str "") = Cell.int 504 →
        (r4Row data bwm bim hw idx r).es.filter (colPred "PCI") =
          [mkErr "Radio 4G" (some (idx + 2)) (some "PCI") "PCI 504 is out of range (0-503)"] ∧
        (r4Row data bwm bim hw idx r).ws.filter (colPred "PCI") = []) ∧
    (∀ (data : TableSet) (idx : Nat) (r : Row),
      rowGet r "nRPCI" (Cell.str "") = Cell.int 0 →
        (r5Row data idx r).filter (colPred "nRPCI") = []) ∧
    (∀ (data : TableSet) (idx : Nat) (r : Row),
      rowGet r "nRPCI" (Cell.str "") = Cell.int 1007 →
        (r5Row data idx r).filter (colPred "nRPCI") = []) ∧
    (∀ (data : TableSet) (idx : Nat) (r : Row),
      rowGet r "nRPCI" (Cell.str "") = Cell.int 1008 →
        (r5Row data idx r).filter (colPred "nRPCI") =
          [mkErr "Radio 5G" (some (idx + 2)) (some "nRPCI")
            "nRPCI 1008 is out of range (0-1007)"]) := by
  refine ⟨?_, ?_, ?_, ?_, ?_, ?_, ?_⟩
  all_goals intro data
  case _ | _ | _ | _ =>
    intro bwm bim hw idx r hpci
    constructor
    · rw [r4Row_es, List.filter_append, hpci,
        neRefErrs_filter_colPred_nil (by decide), List.nil_append]
      rfl
    · exact r4Row_ws_filter_colPred_nil (by decide) (by decide) (by decide)
  all_goals intro idx r hpci
  all_goals
    unfold r5Row
    dsimp only
    rw [List.filter_append, hpci, neRefErrs_filter_colPred_nil (by decide), List.nil_append]
    rfl

/-- C4 witness: the bounds evaluated at concrete rows. -/
theorem C4_pci_range_bounds_witness :
    (r4Row [] (Json.obj []) (Json.obj []) (Json.obj []) 0
      (r4RowWith "PCI" (Cell.int 0))).es.filter (colPred "PCI") = [] ∧
    (r4Row [] (Json.obj []) (Json.obj []) (Json.obj []) 0
      (r4RowWith "PCI" (Cell.int 503))).es.filter (colPred "PCI") = [] ∧
    (r4Row [] (Json.obj []) (Json.obj []) (Json.obj []) 0
      (r4RowWith "PCI" (Cell.int (-1)))).es.filter (colPred "PCI") =
      [mkErr "Radio 4G" (some 2) (some "PCI") "PCI -1 is out of range (0-503)"] ∧
    (r4Row [] (Json.obj []) (Json.obj []) (Json.obj []) 0
      (r4RowWith "PCI" (Cell.int 504))).es.filter (colPred "PCI") =
      [mkErr "Radio 4G" (some 2) (some "PCI") "PCI 504 is out of range (0-503)"] ∧
    (r5Row [] 0 [("nRPCI", Cell.int 0)]).filter (colPred "nRPCI") = [] ∧
    (r5Row [] 0 [("nRPCI", Cell.int 1007)]).filter (colPred "nRPCI") = [] ∧
    (r5Row [] 0 [("nRPCI", Cell.int 1008)]).filter (colPred "nRPCI") =
      [mkErr "Radio 5G" (some 2) (some "nRPCI") "nRPCI 1008 is out of range (0-1007)"] := by
  refine ⟨?_, ?_, ?_, ?_, ?_, ?_, ?_⟩
  · exact (C4_pci_range_bounds.1 [] (Json.obj []) (Json.obj []) (Json.obj []) 0
      (r4RowWith "PCI" (Cell.int 0)) (by decide)).1
  · exact (C4_pci_range_bounds.2.1 [] (Json.obj []) (Json.obj []) (Json.obj []) 0
      (r4RowWith "PCI" (Cell.int 503)) (by decide)).1
  · exact (C4_pci_range_bounds.2.2.1 [] (Json.obj []) (Json.obj []) (Json.obj []) 0
      (r4RowWith "PCI" (Cell.int (-1))) (by decide)).1
  · exact (C4_pci_range_bounds.2.2.2.1 [] (Json.obj []) (Json.obj []) (Json.obj []) 0
      (r4RowWith "PCI" (Cell.int 504)) (by decide)).1
  · exact C4_pci_range_bounds.2.2.2.2.1 [] 0 [("nRPCI", Cell.int 0)] (by decide)
  · exact C4_pci_range_bounds.2.2.2.2.2.1 [] 0 [("nRPCI", Cell.int 1007)] (by decide)
  · exact C4_pci_range_bounds.2.2.2.2.2.2 [] 0 [("nRPCI", Cell.int 1008)] (by decide)

/-! ### C9 -/

/-- C9: a cell whose string form is exactly `nan` or the empty string is
treated as missing and skipped in the IP-address fields (`OAM_IP`, `LTE_IP`,
`NR_IP`), in the `MME` and `AMF` registry fields and in the 4G sheet's
`RRUname` field: such a row contributes no finding of any severity at that
column. -/
theorem C9_missing_value_cells_skipped :
    (∀ (cols : List String) (mmeCfg amfCfg : Json) (idx : Nat) (r : Row) (c : String),
      (c = "OAM_IP" ∨ c = "LTE_IP" ∨ c = "NR_IP") →
      (strCell (rowGet r c (Cell.str "")) = "nan" ∨ strCell (rowGet r c (Cell.str "")) = "") →
      (ipRowFindings cols mmeCfg amfCfg idx r).1.filter (colPred c) = [] ∧
      (ipRowFindings cols mmeCfg amfCfg idx r).2.filter (colPred c) = []) ∧
    (∀ (cols : List String) (mmeCfg amfCfg : Json) (idx : Nat) (r : Row),
      (strCell (rowGet r "MME" (Cell.str "")) = "nan" ∨
        strCell (rowGet r "MME" (Cell.str "")) = "") →
      (ipRowFindings cols mmeCfg amfCfg idx r).1.filter (colPred "MME") = [] ∧
      (ipRowFindings cols mmeCfg amfCfg idx r).2.filter (colPred "MME") = []) ∧
    (∀ (cols : List String) (mmeCfg amfCfg : Json) (idx : Nat) (r : Row),
      (strCell (rowGet r "AMF" (Cell.str "")) = "nan" ∨
        strCell (rowGet r "AMF" (Cell.str "")) = "") →
      (ipRowFindings cols mmeCfg amfCfg idx r).1.filter (colPred "AMF") = [] ∧
      (ipRowFindings cols mmeCfg amfCfg idx r).2.filter (colPred "AMF") = []) ∧
    (∀ (data : TableSet) (bwm bim hw : Json) (idx : Nat) (r : Row),
      (strCell (rowGet r "RRUname" (Cell.str "")) = "nan" ∨
        strCell (rowGet r "RRUname" (Cell.str "")) = "") →
      (r4Row data bwm bim hw idx r).es.filter (colPred "RRUname") = [] ∧
      (r4Row data bwm bim hw idx r).ws.filter (colPred "RRUname") = []) := by
  have hAddr : ∀ (cols : List String) (rowNum : Nat) (r : Row) (c : String),
      (strCell (rowGet r c (Cell.str "")) = "nan" ∨ strCell (rowGet r c (Cell.str "")) = "") →
      (ipAddrErrs cols rowNum r).filter (colPred c) = [] := by
    intro cols rowNum r c hval
    apply filter_eq_nil_of_shape
    intro f hf
    obtain ⟨c2, hc2, hne, hnan, rfl⟩ := mem_ipAddrErrs hf
    by_cases hcc : c2 = c
    · subst hcc
      rcases hval with h | h
      · exact absurd h hnan
      · exact absurd h hne
    · simp [colPred, mkErr, hcc]
  have hEnb : ∀ (rowNum : Nat) (e : Cell) (c : String), c ≠ "eNBId" →
      (ipEnbErrs rowNum e).filter (colPred c) = [] := by
    intro rowNum e c hc
    apply filter_eq_nil_of_shape
    intro f hf
    simp [colPred, (mem_ipEnbErrs hf).2.2, Ne.symm hc]
  have hNe : ∀ (rowNum : Nat) (nm : String) (c : String), c ≠ "NE_Name" →
      (ipNeNameWarns rowNum nm).filter (colPred c) = [] := by
    intro rowNum nm c hc
    apply filter_eq_nil_of_shape
    intro f hf
    simp [colPred, (mem_ipNeNameWarns hf).2.2, Ne.symm hc]
  have hReg : ∀ (col2 : String) (registry : Json) (rowNum : Nat) (str2 : String) (c : String),
      c ≠ col2 → (ipRegistryWarns col2 registry rowNum str2).filter (colPred c) = [] := by
    intro col2 registry rowNum str2 c hc
    apply filter_eq_nil_of_shape
    intro f hf
    simp [colPred, (mem_ipRegistryWarns hf).2.2.1, Ne.symm hc]
  have hRegSkip : ∀ (col2 : String) (registry : Json) (rowNum : Nat) (str2 : String),
      (str2 = "nan" ∨ str2 = "") → ipRegistryWarns col2 registry rowNum str2 = [] := by
    intro col2 registry rowNum str2 h
    rcases h with h | h <;> subst h <;> rfl
  refine ⟨?_, ?_, ?_, ?_⟩
  · intro cols mmeCfg amfCfg idx r c hc hval
    constructor
    · unfold ipRowFindings
      dsimp only
      rw [List.filter_append, hAddr cols (idx + 2) r c hval,
        hEnb (idx + 2) _ c (by rcases hc with rfl | rfl | rfl <;> decide)]
      rfl
    · unfold ipRowFindings
      dsimp only
      rw [List.filter_append, List.filter_append,
        hNe (idx + 2) _ c (by rcases hc with rfl | rfl | rfl <;> decide),
        hReg "MME" mmeCfg (idx + 2) _ c (by rcases hc with rfl | rfl | rfl <;> decide),
        hReg "AMF" amfCfg (idx + 2) _ c (by rcases hc with rfl | rfl | rfl <;> decide)]
      rfl
  · intro cols mmeCfg amfCfg idx r hval
    constructor
    · unfold ipRowFindings
      dsimp only
      rw [List.filter_append, hAddr cols (idx + 2) r "MME" hval,
        hEnb (idx + 2) _ "MME" (by decide)]
      rfl
    · unfold ipRowFindings
      dsimp only
      rw [List.filter_append, List.filter_append,
        hNe (idx + 2) _ "MME" (by decide),
        hRegSkip "MME" mmeCfg (idx + 2) _ hval,
        hReg "AMF" amfCfg (idx + 2) _ "MME" (by decide)]
      rfl
  · intro cols mmeCfg amfCfg idx r hval
    constructor
    · unfold ipRowFindings
      dsimp only
      rw [List.filter_append, hAddr cols (idx + 2) r "AMF" hval,
        hEnb (idx + 2) _ "AMF" (by decide)]
      rfl
    · unfold ipRowFindings
      dsimp only
      rw [List.filter_append, List.filter_append,
        hNe (idx + 2) _ "AMF" (by decide),
        hReg "MME" mmeCfg (idx + 2) _ "AMF" (by decide),
        hRegSkip "AMF" amfCfg (idx + 2) _ hval]
      rfl
  · intro data bwm bim hw idx r hval
    constructor
    · rw [r4Row_es, List.filter_append,
        neRefErrs_filter_colPred_nil (by decide),
        pciErrs4g_filter_colPred_nil (by decide)]
      rfl
    · exact r4Row_ws_filter_rru_nil hval

/-- C9 witness: concrete rows with `nan` text cells and missing (NaN) cells
in the listed fields produce no finding at those columns. -/
theorem C9_missing_value_cells_skipped_witness :
    (ipRowFindings ["OAM_IP"] (Json.obj []) (Json.obj []) 0
      [("OAM_IP", Cell.str "nan")]).1.filter (colPred "OAM_IP") = [] ∧
    (ipRowFindings ["MME"] (Json.obj []) (Json.obj []) 0
      [("MME", Cell.nan)]).2.filter (colPred "MME") = [] ∧
    (ipRowFindings ["AMF"] (Json.obj []) (Json.obj []) 0
      [("AMF", Cell.str "")]).2.filter (colPred "AMF") = [] ∧
    (r4Row [] (Json.obj []) (Json.obj []) (Json.obj []) 0
      (r4RowWith "RRUname" Cell.nan)).ws.filter (colPred "RRUname") = [] := by
  refine ⟨?_, ?_, ?_, ?_⟩
  · exact (C9_missing_value_cells_skipped.1 ["OAM_IP"] (Json.obj []) (Json.obj []) 0
      [("OAM_IP", Cell.str "nan")] "OAM_IP" (Or.inl rfl) (Or.inl (by decide))).1
  · exact (C9_missing_value_cells_skipped.2.1 ["MME"] (Json.obj []) (Json.obj []) 0
      [("MME", Cell.nan)] (Or.inl (by decide))).2
  · exact (C9_missing_value_cells_skipped.2.2.1 ["AMF"] (Json.obj []) (Json.obj []) 0
      [("AMF", Cell.str "")] (Or.inr (by decide))).2
  · exact (C9_missing_value_cells_skipped.2.2.2 [] (Json.obj []) (Json.obj []) (Json.obj []) 0
      (r4RowWith "RRUname" Cell.nan) (Or.inl (by decide))).2

/-! ### C10 -/

/-- C10: the `int(float(...))` coercion used for PCI, nRPCI and eNBId
truncates toward zero before any range check: in general the truncated
magnitude is the integer part of the decimal magnitude with the sign
preserved, and in particular a PCI cell `"-0.5"` coerces to 0 and
`"503.9"` to 503, both inside the range 0-503, so neither contributes any
finding; likewise for nRPCI and eNBId. -/
theorem C10_truncation_toward_zero :
    (pyIntFloat (Cell.str "-0.5") = .ok 0 ∧ pyIntFloat (Cell.str "503.9") = .ok 503) ∧
    (∀ d : Dec, ∃ rem, rem < 10 ^ d.exp ∧
      (Dec.trunc d).natAbs * 10 ^ d.exp + rem = d.num.natAbs ∧
      (0 ≤ d.num → 0 ≤ Dec.trunc d) ∧ (d.num < 0 → Dec.trunc d ≤ 0)) ∧
    (∀ (data : TableSet) (bwm bim hw : Json) (idx : Nat) (r : Row),
      (rowGet r "PCI" (Cell.str "") = Cell.str "-0.5" ∨
        rowGet r "PCI" (Cell.str "") = Cell.str "503.9") →
      (r4Row data bwm bim hw idx r).es.filter (colPred "PCI") = []) ∧
    (∀ (data : TableSet) (idx : Nat) (r : Row),
      (rowGet r "nRPCI" (Cell.str "") = Cell.str "-0.5" ∨
        rowGet r "nRPCI" (Cell.str "") = Cell.str "1007.9") →
      (r5Row data idx r).filter (colPred "nRPCI") = []) ∧
    (∀ rowNum : Nat,
      ipEnbErrs rowNum (Cell.str "-0.5") = [] ∧ ipEnbErrs rowNum (Cell.str "503.9") = []) := by
  refine ⟨⟨by decide, by decide⟩, ?_, ?_, ?_, ?_⟩
  · intro d
    have hp : 0 < 10 ^ d.exp := pow_pos (by norm_num) d.exp
    refine ⟨d.num.natAbs % 10 ^ d.exp, Nat.mod_lt _ hp, ?_, ?_, ?_⟩
    · unfold Dec.trunc
      by_cases h : 0 ≤ d.num
      · rw [if_pos h]
        have ht : d.num.toNat = d.num.natAbs := by omega
        simp only [Int.natAbs_ofNat, ht]
        rw [Nat.mul_comm]
        exact Nat.div_add_mod d.num.natAbs (10 ^ d.exp)
      · rw [if_neg h]
        simp only [Int.natAbs_neg, Int.natAbs_ofNat]
        rw [Nat.mul_comm]
        exact Nat.div_add_mod d.num.natAbs (10 ^ d.exp)
    · intro h
      unfold Dec.trunc
      rw [if_pos h]
      exact Int.ofNat_nonneg _
    · intro h
      unfold Dec.trunc
      rw [if_neg (by omega)]
      exact neg_nonpos.mpr (Int.ofNat_nonneg _)
  · intro data bwm bim hw idx r hpci
    rw [r4Row_es, List.filter_append, neRefErrs_filter_colPred_nil (by decide)]
    rcases hpci with h | h <;> rw [h] <;> rfl
  · intro data idx r hpci
    unfold r5Row
    dsimp only
    rw [List.filter_append, neRefErrs_filter_colPred_nil (by decide)]
    rcases hpci with h | h <;> rw [h] <;> rfl
  · intro rowNum
    exact ⟨rfl, rfl⟩

/-- C10 witness: the truncation facts evaluated at concrete rows and at the
decimal -0.5 itself. -/
theorem C10_truncation_toward_zero_witness :
    (r4Row [] (Json.obj []) (Json.obj []) (Json.obj []) 0
      (r4RowWith "PCI" (Cell.str "-0.5"))).es.filter (colPred "PCI") = [] ∧
    (r5Row [] 0 [("nRPCI", Cell.str "1007.9")]).filter (colPred "nRPCI") = [] ∧
    (∃ rem, rem < 10 ^ (Dec.mk (-5) 1).exp ∧
      ((Dec.mk (-5) 1).trunc).natAbs * 10 ^ (Dec.mk (-5) 1).exp + rem =
        (Dec.mk (-5) 1).num.natAbs ∧
      (0 ≤ (Dec.mk (-5) 1).num → 0 ≤ (Dec.mk (-5) 1).trunc) ∧
      ((Dec.mk (-5) 1).num < 0 → (Dec.mk (-5) 1).trunc ≤ 0)) := by
  refine ⟨?_, ?_, ?_⟩
  · exact C10_truncation_toward_zero.2.2.1 [] (Json.obj []) (Json.obj []) (Json.obj []) 0
      (r4RowWith "PCI" (Cell.str "-0.5")) (Or.inl (by decide))
  · exact C10_truncation_toward_zero.2.2.2.1 [] 0 [("nRPCI", Cell.str "1007.9")]
      (Or.inr (by decide))
  · exact C10_truncation_toward_zero.2.1 (Dec.mk (-5) 1)

/-! ### C5 -/

/-- C5 counterexample: the claim requires an AMF-registry section check, but
the code's required-section list has no `amf` entry: a config with every
checked section present and no `amf` key yields no config-section Error at
all. -/
theorem C5_counterexample_amf_not_checked :
    (([("mcc", Json.leaf), ("mnc", Json.leaf), ("province", Json.leaf),
       ("mme", Json.obj []), ("SPU", Json.obj [("V1.70.26", Json.obj [])])] :
        Config).lookup "amf").isNone = true ∧
    (validateFindings []
      [("mcc", Json.leaf), ("mnc", Json.leaf), ("province", Json.leaf),
       ("mme", Json.obj []), ("SPU", Json.obj [("V1.70.26", Json.obj [])])]).exn = none ∧
    (validateFindings []
      [("mcc", Json.leaf), ("mnc", Json.leaf), ("province", Json.leaf),
       ("mme", Json.obj []), ("SPU", Json.obj [("V1.70.26", Json.obj [])])]).es.filter
      (fun f => f.sheet == "config.json") = [] := by
  decide

/-- C5 (amended): the required top-level sections are exactly `mcc`, `mnc`,
`province`, the MME registry and the SPU block — the AMF registry is not
checked — and under a raise-free run the config-sheet Errors are exactly one
per missing checked section, in list order. -/
theorem C5_required_config_sections (data : TableSet) (cfg : Config)
    (hexn : (validateFindings data cfg).exn = none) :
    (validateFindings data cfg).es.filter (fun f => f.sheet == "config.json") =
      (REQUIRED_CONFIG_SECTIONS.filter (fun s => !(cfg.lookup s).isSome)).map
        (fun s => mkErr "config.json" none none
          ("Required section '" ++ s ++ "' is missing from config.json")) := by
  rw [validateFindings_es data cfg hexn]
  simp only [List.filter_append]
  rw [filter_eq_nil_of_shape (fun f hf => by
    rcases (mem_validate_required_sheets_es hf).2.2 with h | h <;> simp [h])]
  rw [filter_eq_nil_of_shape (fun f hf => by simp [mem_validate_ip_sheet_es hf])]
  rw [filter_eq_nil_of_shape (fun f hf => by simp [mem_validate_radio_4g_sheet_es hf])]
  rw [filter_eq_nil_of_shape (fun f hf => by simp [(mem_validate_radio_5g_sheet_es hf).1])]
  rw [filter_eq_nil_of_shape (fun f hf => by simp [mem_validate_mapping_sheet_es hf])]
  rw [List.filter_eq_self.mpr (fun f hf => by simp [mem_validate_config_references_es hf])]
  simp only [List.nil_append]
  rw [validate_config_references_es, filterMap_guard_eq_map_filter]

/-- C5 witness: with the empty config all five checked sections are missing
and exactly five config-sheet Errors result. -/
theorem C5_required_config_sections_witness :
    (validateFindings [] []).es.filter (fun f => f.sheet == "config.json") =
      (REQUIRED_CONFIG_SECTIONS.filter (fun s => !(([] : Config).lookup s).isSome)).map
        (fun s => mkErr "config.json" none none
          ("Required section '" ++ s ++ "' is missing from config.json")) := by
  exact C5_required_config_sections [] [] (by decide)

/-! ### C3 -/

/-- C3 counterexample: (a) a Radio 5G sheet missing the required column
`nRCell` emits a Warning, not the Error the claim requires; (b) an IP sheet
that is present but empty emits nothing at all for its missing required
columns. -/
theorem C3_counterexample_severity_and_empty :
    ((([("Radio 5G", DataFrame.mk ["NE_Name"] [[("NE_Name", Cell.str "gAB1")]])] :
        TableSet).lookup "Radio 5G" =
        some (DataFrame.mk ["NE_Name"] [[("NE_Name", Cell.str "gAB1")]])) ∧
     (DataFrame.mk ["NE_Name"] [[("NE_Name", Cell.str "gAB1")]]).pyEmpty = false ∧
     "nRCell" ∈ RADIO_5G_REQUIRED_COLUMNS ∧
     (DataFrame.mk ["NE_Name"] [[("NE_Name", Cell.str "gAB1")]]).columns.contains "nRCell" =
       false ∧
     (validateFindings [("Radio 5G", DataFrame.mk ["NE_Name"] [[("NE_Name", Cell.str "gAB1")]])]
       cfgGood).exn = none ∧
     (validateFindings [("Radio 5G", DataFrame.mk ["NE_Name"] [[("NE_Name", Cell.str "gAB1")]])]
       cfgGood).es.filter (colMissingPred "Radio 5G" "nRCell") = [] ∧
     (validateFindings [("Radio 5G", DataFrame.mk ["NE_Name"] [[("NE_Name", Cell.str "gAB1")]])]
       cfgGood).ws.filter (colMissingPred "Radio 5G" "nRCell") =
       [mkWarn "Radio 5G" none (some "nRCell") "Expected column 'nRCell' is missing"]) ∧
    ((([("IP", DataFrame.mk ["foo"] [])] : TableSet).lookup "IP" =
        some (DataFrame.mk ["foo"] [])) ∧
     "eNBId" ∈ IP_REQUIRED_COLUMNS ∧
     (DataFrame.mk ["foo"] []).columns.contains "eNBId" = false ∧
     (validateFindings [("IP", DataFrame.mk ["foo"] [])] cfgGood).exn = none ∧
     (validateFindings [("IP", DataFrame.mk ["foo"] [])] cfgGood).es.filter
       (colMissingPred "IP" "eNBId") = [] ∧
     (validateFindings [("IP", DataFrame.mk ["foo"] [])] cfgGood).ws.filter
       (colMissingPred "IP" "eNBId") = []) := by
  decide

/-- C3 (amended): for each recognized sheet that is present and nonempty,
and under a raise-free run, each required column missing from the sheet
yields exactly one finding naming the column with no row number — an Error
for the IP and Radio 4G sheets, but a Warning (message "Expected column
...") for the Radio 5G sheet — and no finding of the other severity. -/
theorem C3_missing_required_columns (data : TableSet) (cfg : Config)
    (hexn : (validateFindings data cfg).exn = none) :
    (∀ df c, data.lookup "IP" = some df → df.pyEmpty = false →
      c ∈ IP_REQUIRED_COLUMNS → df.columns.contains c = false →
      (validateFindings data cfg).es.filter (colMissingPred "IP" c) =
        [mkErr "IP" none (some c) ("Required column '" ++ c ++ "' is missing")] ∧
      (validateFindings data cfg).ws.filter (colMissingPred "IP" c) = []) ∧
    (∀ df c, data.lookup "Radio 4G" = some df → df.pyEmpty = false →
      c ∈ RADIO_4G_REQUIRED_COLUMNS → df.columns.contains c = false →
      (validateFindings data cfg).es.filter (colMissingPred "Radio 4G" c) =
        [mkErr "Radio 4G" none (some c) ("Required column '" ++ c ++ "' is missing")] ∧
      (validateFindings data cfg).ws.filter (colMissingPred "Radio 4G" c) = []) ∧
    (∀ df c, data.lookup "Radio 5G" = some df → df.pyEmpty = false →
      c ∈ RADIO_5G_REQUIRED_COLUMNS → df.columns.contains c = false →
      (validateFindings data cfg).ws.filter (colMissingPred "Radio 5G" c) =
        [mkWarn "Radio 5G" none (some c) ("Expected column '" ++ c ++ "' is missing")] ∧
      (validateFindings data cfg).es.filter (colMissingPred "Radio 5G" c) = []) := by
  have hes := validateFindings_es data cfg hexn
  have hws := validateFindings_ws data cfg hexn
  refine ⟨?_, ?_, ?_⟩
  · intro df c hdf hne hc hmiss
    constructor
    · rw [hes, validate_ip_sheet_es_of_present hdf hne]
      simp only [List.filter_append]
      rw [filter_colMissing_nil_col (fun f hf => (mem_validate_required_sheets_es hf).1),
        missingColumnFindings_filter_eq (by decide) hc hmiss,
        filter_colMissing_nil_row (fun f hf => (mem_ipRows_es hf).2),
        filter_colMissing_nil_sheet (fun f hf => by
          rw [mem_validate_radio_4g_sheet_es hf]; decide),
        filter_colMissing_nil_sheet (fun f hf => by
          rw [(mem_validate_radio_5g_sheet_es hf).1]; decide),
        filter_colMissing_nil_sheet (fun f hf => by
          rw [mem_validate_mapping_sheet_es hf]; decide),
        filter_colMissing_nil_sheet (fun f hf => by
          rw [mem_validate_config_references_es hf]; decide)]
      simp [mkErr]
    · rw [hws]
      simp only [List.filter_append]
      rw [filter_colMissing_nil_col (fun f hf => (mem_validate_required_sheets_ws hf).1),
        filter_colMissing_nil_row (fun f hf => (mem_validate_ip_sheet_ws hf).2),
        filter_colMissing_nil_row (fun f hf => (mem_validate_radio_4g_sheet_ws hf).2),
        filter_colMissing_nil_sheet (fun f hf => by
          rw [(mem_validate_radio_5g_sheet_ws hf).1]; decide),
        filter_colMissing_nil_sheet (fun f hf => by
          rw [mem_validate_mapping_sheet_ws hf]; decide),
        filter_colMissing_nil_sheet (fun f hf => by
          rw [mem_validate_config_references_ws hf]; decide)]
      simp
  · intro df c hdf hne hc hmiss
    constructor
    · rw [hes, validate_radio_4g_sheet_es_of_present hdf hne]
      simp only [List.filter_append]
      rw [filter_colMissing_nil_col (fun f hf => (mem_validate_required_sheets_es hf).1),
        filter_colMissing_nil_sheet (fun f hf => by
          rw [mem_validate_ip_sheet_es hf]; decide),
        missingColumnFindings_filter_eq (by decide) hc hmiss,
        filter_colMissing_nil_row (fun f hf => (mem_r4Rows_es hf).2),
        filter_colMissing_nil_sheet (fun f hf => by
          rw [(mem_validate_radio_5g_sheet_es hf).1]; decide),
        filter_colMissing_nil_sheet (fun f hf => by
          rw [mem_validate_mapping_sheet_es hf]; decide),
        filter_colMissing_nil_sheet (fun f hf => by
          rw [mem_validate_config_references_es hf]; decide)]
      simp [mkErr]
    · rw [hws]
      simp only [List.filter_append]
      rw [filter_colMissing_nil_col (fun f hf => (mem_validate_required_sheets_ws hf).1),
        filter_colMissing_nil_row (fun f hf => (mem_validate_ip_sheet_ws hf).2),
        filter_colMissing_nil_row (fun f hf => (mem_validate_radio_4g_sheet_ws hf).2),
        filter_colMissing_nil_sheet (fun f hf => by
          rw [(mem_validate_radio_5g_sheet_ws hf).1]; decide),
        filter_colMissing_nil_sheet (fun f hf => by
          rw [mem_validate_mapping_sheet_ws hf]; decide),
        filter_colMissing_nil_sheet (fun f hf => by
          rw [mem_validate_config_references_ws hf]; decide)]
      simp
  · intro df c hdf hne hc hmiss
    constructor
    · rw [hws, validate_radio_5g_sheet_ws_of_present hdf hne]
      simp only [List.filter_append]
      rw [filter_colMissing_nil_col (fun f hf => (mem_validate_required_sheets_ws hf).1),
        filter_colMissing_nil_row (fun f hf => (mem_validate_ip_sheet_ws hf).2),
        filter_colMissing_nil_row (fun f hf => (mem_validate_radio_4g_sheet_ws hf).2),
        missingColumnFindings_filter_eq (by decide) hc hmiss,
        filter_colMissing_nil_sheet (fun f hf => by
          rw [mem_validate_mapping_sheet_ws hf]; decide),
        filter_colMissing_nil_sheet (fun f hf => by
          rw [mem_validate_config_references_ws hf]; decide)]
      simp [mkWarn]
    · rw [hes]
      simp only [List.filter_append]
      rw [filter_colMissing_nil_col (fun f hf => (mem_validate_required_sheets_es hf).1),
        filter_colMissing_nil_sheet (fun f hf => by
          rw [mem_validate_ip_sheet_es hf]; decide),
        filter_colMissing_nil_sheet (fun f hf => by
          rw [mem_validate_radio_4g_sheet_es hf]; decide),
        filter_colMissing_nil_row (fun f hf => (mem_validate_radio_5g_sheet_es hf).2),
        filter_colMissing_nil_sheet (fun f hf => by
          rw [mem_validate_mapping_sheet_es hf]; decide),
        filter_colMissing_nil_sheet (fun f hf => by
          rw [mem_validate_config_references_es hf]; decide)]
      simp

/-- An IP sheet missing its required `eNBId` column, otherwise valid. -/
def ipDfW3 : DataFrame :=
  ⟨["NE_Name", "OAM_IP", "OAM_Gateway", "LTE_IP", "LTE_Gateway"],
   [[("NE_Name", Cell.str "gAB1Z"), ("OAM_IP", Cell.str "10.0.0.1"),
     ("OAM_Gateway", Cell.str "10.0.0.2"), ("LTE_IP", Cell.str "10.0.0.3"),
     ("LTE_Gateway", Cell.str "10.0.0.4")]]⟩

/-- A 4G sheet missing its required `CellName` column, otherwise valid. -/
def r4DfW3 : DataFrame :=
  ⟨["NE_Name", "cellId", "PCI", "TAC", "arfcndl", "dlChannelBandwidth", "RRU",
    "RRUname", "rruPort"],
   [[("NE_Name", Cell.str "gAB1Z"), ("cellId", Cell.int 1), ("PCI", Cell.int 1),
     ("TAC", Cell.int 1), ("arfcndl", Cell.int 1300),
     ("dlChannelBandwidth", Cell.num ⟨10, 0⟩), ("RRU", Cell.str "r"),
     ("RRUname", Cell.str "RRU1"), ("rruPort", Cell.int 1)]]⟩

/-- A 5G sheet missing its required `gNBId` column. -/
def r5DfW3 : DataFrame :=
  ⟨["NE_Name", "nRCell", "cellLocalId", "nRPCI", "nRTAC", "arfcnDL",
    "bSChannelBwDL", "RRU", "RRUname", "rruPort"],
   [[("NE_Name", Cell.str "gAB1Z"), ("nRPCI", Cell.int 5)]]⟩

/-- A TableSet where each recognized sheet misses one required column. -/
def dataW3 : TableSet := [("IP", ipDfW3), ("Radio 4G", r4DfW3), ("Radio 5G", r5DfW3)]

/-- C3 witness: the amended statement evaluated on `dataW3`. -/
theorem C3_missing_required_columns_witness :
    (validateFindings dataW3 cfgGood).es.filter (colMissingPred "IP" "eNBId") =
      [mkErr "IP" none (some "eNBId") "Required column 'eNBId' is missing"] ∧
    (validateFindings dataW3 cfgGood).es.filter (colMissingPred "Radio 4G" "CellName") =
      [mkErr "Radio 4G" none (some "CellName") "Required column 'CellName' is missing"] ∧
    (validateFindings dataW3 cfgGood).ws.filter (colMissingPred "Radio 5G" "gNBId") =
      [mkWarn "Radio 5G" none (some "gNBId") "Expected column 'gNBId' is missing"] := by
  refine ⟨?_, ?_, ?_⟩
  · exact ((C3_missing_required_columns dataW3 cfgGood (by decide)).1 ipDfW3 "eNBId"
      (by decide) (by decide) (by decide) (by decide)).1
  · exact ((C3_missing_required_columns dataW3 cfgGood (by decide)).2.1 r4DfW3 "CellName"
      (by decide) (by decide) (by decide) (by decide)).1
  · exact ((C3_missing_required_columns dataW3 cfgGood (by decide)).2.2 r5DfW3 "gNBId"
      (by decide) (by decide) (by decide) (by decide)).1

/-! ### C6 -/

lemma rowColPred_reorder (S c : String) (n : Nat) (f : ValidationResult) :
    rowColPred S c n f =
      ((f.row == some n) && ((f.sheet == S) && (f.column == some c))) := by
  unfold rowColPred
  cases hs : (f.sheet == S) <;> cases hr : (f.row == some n) <;>
    cases hc2 : (f.column == some c) <;> rfl

lemma mem_pciErrs5g {rowNum : Nat} {pci : Cell} {f : ValidationResult}
    (h : f ∈ pciErrs5g rowNum pci) :
    f.level = "error" ∧ f.sheet = "Radio 5G" ∧ f.row = some rowNum ∧
      f.column = some "nRPCI" := by
  unfold pciErrs5g at h
  split at h
  · split at h
    · split at h
      · simp only [List.mem_singleton] at h
        subst h
        exact ⟨rfl, rfl, rfl, rfl⟩
      · exact absurd h (by simp)
    · simp only [List.mem_singleton] at h
      subst h
      exact ⟨rfl, rfl, rfl, rfl⟩
  · exact absurd h (by simp)

lemma r4Rows_rowCol_extract {data : TableSet} {bwm bim hw : Json} {rows : List Row}
    {i : Nat} {r : Row} (hi : rows[i]? = some r)
    (hexn : (r4Rows data bwm bim hw 0 rows).exn = none) :
    (r4Rows data bwm bim hw 0 rows).es.filter (rowColPred "Radio 4G" "NE_Name" (i + 2)) =
    (r4Row data bwm bim hw i r).es.filter (rowColPred "Radio 4G" "NE_Name" (i + 2)) := by
  have h := @r4Rows_filter_row data bwm bim hw
    (fun f => (f.sheet == "Radio 4G") && (f.column == some "NE_Name"))
    0 rows i r hi hexn
  simp only [Nat.zero_add] at h
  have hcongr : ∀ (l : List ValidationResult),
      l.filter (rowColPred "Radio 4G" "NE_Name" (i + 2)) =
      l.filter (fun f => (f.row == some (i + 2)) &&
        ((f.sheet == "Radio 4G") && (f.column == some "NE_Name"))) := by
    intro l
    apply List.filter_congr
    intro f _
    exact rowColPred_reorder _ _ _ f
  rw [hcongr, hcongr, h]

lemma r5Rows_rowCol_extract {data : TableSet} {rows : List Row} {i : Nat} {r : Row}
    (hi : rows[i]? = some r) :
    (r5Rows data 0 rows).filter (rowColPred "Radio 5G" "NE_Name" (i + 2)) =
    (r5Row data i r).filter (rowColPred "Radio 5G" "NE_Name" (i + 2)) := by
  have h := @r5Rows_filter_row data
    (fun f => (f.sheet == "Radio 5G") && (f.column == some "NE_Name"))
    0 rows i r hi
  simp only [Nat.zero_add] at h
  have hcongr : ∀ (l : List ValidationResult),
      l.filter (rowColPred "Radio 5G" "NE_Name" (i + 2)) =
      l.filter (fun f => (f.row == some (i + 2)) &&
        ((f.sheet == "Radio 5G") && (f.column == some "NE_Name"))) := by
    intro l
    apply List.filter_congr
    intro f _
    exact rowColPred_reorder _ _ _ f
  rw [hcongr, hcongr, h]

/-- C6 counterexample: (a) a 4G row whose element-name cell renders as the
empty string is skipped even though that value is absent from the IP sheet's
`NE_Name` values — no referential Error is emitted; (b) with an IP sheet
lacking the `NE_Name` column entirely, a 4G row whose name appears nowhere
is also skipped. -/
theorem C6_counterexample_skips :
    ((containsStr (ipDfGood.colValues "NE_Name") "" = false) ∧
     (validateFindings
        [("IP", ipDfGood), ("Radio 4G", r4DfWith "NE_Name" (Cell.str ""))] cfgGood).exn =
       none ∧
     (validateFindings
        [("IP", ipDfGood), ("Radio 4G", r4DfWith "NE_Name" (Cell.str ""))] cfgGood).es.filter
       (rowColPred "Radio 4G" "NE_Name" 2) = []) ∧
    ((containsStr ((DataFrame.mk ["eNBId"] [[("eNBId", Cell.int 1)]]).colValues "NE_Name")
        "gZZ99" = false) ∧
     (validateFindings
        [("IP", DataFrame.mk ["eNBId"] [[("eNBId", Cell.int 1)]]),
         ("Radio 4G", r4DfWith "NE_Name" (Cell.str "gZZ99"))] cfgGood).exn = none ∧
     (validateFindings
        [("IP", DataFrame.mk ["eNBId"] [[("eNBId", Cell.int 1)]]),
         ("Radio 4G", r4DfWith "NE_Name" (Cell.str "gZZ99"))] cfgGood).es.filter
       (rowColPred "Radio 4G" "NE_Name" 2) = []) := by
  decide

/-- C6 (amended): under a raise-free run, a 4G or 5G row whose element-name
cell renders nonempty, when the IP sheet is present and has an `NE_Name`
column, emits exactly one referential Error citing that row and the
`NE_Name` column exactly when the name is absent from the IP sheet's
`NE_Name` values; when the IP sheet is absent from the TableSet the check is
skipped entirely — no 4G/5G error cites the `NE_Name` column on any row
(skips also occur for empty-rendering names and when the IP sheet lacks the
`NE_Name` column, per the counterexample). -/
theorem C6_ne_name_referential :
    (∀ (data : TableSet) (cfg : Config) (df ipDf : DataFrame) (i : Nat) (r : Row)
      (nm : String),
      (validateFindings data cfg).exn = none →
      data.lookup "Radio 4G" = some df → df.pyEmpty = false →
      df.rows[i]? = some r →
      data.lookup "IP" = some ipDf → ipDf.columns.contains "NE_Name" = true →
      strCell (rowGet r "NE_Name" (Cell.str "")) = nm → nm ≠ "" →
      containsStr (ipDf.colValues "NE_Name") nm = false →
      (validateFindings data cfg).es.filter (rowColPred "Radio 4G" "NE_Name" (i + 2)) =
        [mkErr "Radio 4G" (some (i + 2)) (some "NE_Name")
          ("NE_Name '" ++ nm ++ "' not found in IP sheet")]) ∧
    (∀ (data : TableSet) (cfg : Config) (df ipDf : DataFrame) (i : Nat) (r : Row)
      (nm : String),
      (validateFindings data cfg).exn = none →
      data.lookup "Radio 5G" = some df → df.pyEmpty = false →
      df.rows[i]? = some r →
      data.lookup "IP" = some ipDf → ipDf.columns.contains "NE_Name" = true →
      strCell (rowGet r "NE_Name" (Cell.str "")) = nm → nm ≠ "" →
      containsStr (ipDf.colValues "NE_Name") nm = false →
      (validateFindings data cfg).es.filter (rowColPred "Radio 5G" "NE_Name" (i + 2)) =
        [mkErr "Radio 5G" (some (i + 2)) (some "NE_Name")
          ("NE_Name '" ++ nm ++ "' not found in IP sheet")]) ∧
    (∀ (data : TableSet) (cfg : Config) (f : ValidationResult),
      data.lookup "IP" = none → f ∈ (validateFindings data cfg).es →
      ¬(f.column = some "NE_Name" ∧ (f.sheet = "Radio 4G" ∨ f.sheet = "Radio 5G") ∧
        ∃ m, f.row = some m)) := by
  refine ⟨?_, ?_, ?_⟩
  · intro data cfg df ipDf i r nm hexn h4 hne hi hip hcol hnm hnm0 habs
    have hes := validateFindings_es data cfg hexn
    have hex4 : (r4Rows data (((configGetD cfg "SPU").getD "V1.70.26").getD "bandwidth_mapping")
        (((configGetD cfg "SPU").getD "V1.70.26").getD "bandIndicator_mapping")
        (((configGetD cfg "SPU").getD "V1.70.26").getD "hwWorkScence_mapping") 0 df.rows).exn =
        none := by
      have h0 := exn4_of_validateFindings data cfg hexn
      rw [validate_radio_4g_sheet_exn_of_present h4 hne] at h0
      exact h0
    have p1 : (validate_required_sheets data).es.filter
        (rowColPred "Radio 4G" "NE_Name" (i + 2)) = [] :=
      filter_rowCol_nil_colnone (fun f hf => (mem_validate_required_sheets_es hf).1)
    have p2 : (validate_ip_sheet data cfg).es.filter
        (rowColPred "Radio 4G" "NE_Name" (i + 2)) = [] :=
      filter_rowCol_nil_sheet (fun f hf => by rw [mem_validate_ip_sheet_es hf]; decide)
    have p3 : (validate_radio_4g_sheet data cfg).es.filter
        (rowColPred "Radio 4G" "NE_Name" (i + 2)) =
        [mkErr "Radio 4G" (some (i + 2)) (some "NE_Name")
          ("NE_Name '" ++ nm ++ "' not found in IP sheet")] := by
      rw [validate_radio_4g_sheet_es_of_present h4 hne, List.filter_append]
      rw [filter_rowCol_nil_rownone (fun f hf => by
        obtain ⟨c2, -, -, rfl⟩ := mem_missingColumnFindings hf; rfl)]
      rw [r4Rows_rowCol_extract hi hex4, r4Row_es, List.filter_append, hnm,
        neRefErrs_absent hip hcol hnm0 habs]
      have hpci : (pciErrs4g (i + 2) (rowGet r "PCI" (Cell.str ""))).filter
          (rowColPred "Radio 4G" "NE_Name" (i + 2)) = [] :=
        filter_eq_nil_of_shape (fun f hf => by
          simp [rowColPred, (mem_pciErrs4g hf).2.2.2])
      rw [hpci]
      simp [rowColPred, mkErr]
    have p4 : (validate_radio_5g_sheet data).es.filter
        (rowColPred "Radio 4G" "NE_Name" (i + 2)) = [] :=
      filter_rowCol_nil_sheet (fun f hf => by
        rw [(mem_validate_radio_5g_sheet_es hf).1]; decide)
    have p5 : (validate_mapping_sheet data).es.filter
        (rowColPred "Radio 4G" "NE_Name" (i + 2)) = [] :=
      filter_rowCol_nil_sheet (fun f hf => by rw [mem_validate_mapping_sheet_es hf]; decide)
    have p6 : (validate_config_references cfg).es.filter
        (rowColPred "Radio 4G" "NE_Name" (i + 2)) = [] :=
      filter_rowCol_nil_sheet (fun f hf => by
        rw [mem_validate_config_references_es hf]; decide)
    rw [hes]
    simp only [List.filter_append]
    rw [p1, p2, p3, p4, p5, p6]
    simp
  · intro data cfg df ipDf i r nm hexn h5 hne hi hip hcol hnm hnm0 habs
    have hes := validateFindings_es data cfg hexn
    have p1 : (validate_required_sheets data).es.filter
        (rowColPred "Radio 5G" "NE_Name" (i + 2)) = [] :=
      filter_rowCol_nil_colnone (fun f hf => (mem_validate_required_sheets_es hf).1)
    have p2 : (validate_ip_sheet data cfg).es.filter
        (rowColPred "Radio 5G" "NE_Name" (i + 2)) = [] :=
      filter_rowCol_nil_sheet (fun f hf => by rw [mem_validate_ip_sheet_es hf]; decide)
    have p3 : (validate_radio_4g_sheet data cfg).es.filter
        (rowColPred "Radio 5G" "NE_Name" (i + 2)) = [] :=
      filter_rowCol_nil_sheet (fun f hf => by
        rw [mem_validate_radio_4g_sheet_es hf]; decide)
    have p4 : (validate_radio_5g_sheet data).es.filter
        (rowColPred "Radio 5G" "NE_Name" (i + 2)) =
        [mkErr "Radio 5G" (some (i + 2)) (some "NE_Name")
          ("NE_Name '" ++ nm ++ "' not found in IP sheet")] := by
      rw [validate_radio_5g_sheet_es_of_present h5 hne, r5Rows_rowCol_extract hi]
      have hr5 : r5Row data i r =
          neRefErrs "Radio 5G" data (i + 2) (strCell (rowGet r "NE_Name" (Cell.str ""))) ++
          pciErrs5g (i + 2) (rowGet r "nRPCI" (Cell.str "")) := rfl
      rw [hr5, List.filter_append, hnm, neRefErrs_absent hip hcol hnm0 habs]
      have hpci : (pciErrs5g (i + 2) (rowGet r "nRPCI" (Cell.str ""))).filter
          (rowColPred "Radio 5G" "NE_Name" (i + 2)) = [] :=
        filter_eq_nil_of_shape (fun f hf => by
          simp [rowColPred, (mem_pciErrs5g hf).2.2.2])
      rw [hpci]
      simp [rowColPred, mkErr]
    have p5 : (validate_mapping_sheet data).es.filter
        (rowColPred "Radio 5G" "NE_Name" (i + 2)) = [] :=
      filter_rowCol_nil_sheet (fun f hf => by rw [mem_validate_mapping_sheet_es hf]; decide)
    have p6 : (validate_config_references cfg).es.filter
        (rowColPred "Radio 5G" "NE_Name" (i + 2)) = [] :=
      filter_rowCol_nil_sheet (fun f hf => by
        rw [mem_validate_config_references_es hf]; decide)
    rw [hes]
    simp only [List.filter_append]
    rw [p1, p2, p3, p4, p5, p6]
    simp
  · intro data cfg f hip hf hcontr
    obtain ⟨hcol, hsheet, m, hrow⟩ := hcontr
    unfold validateFindings at hf
    rcases mem_seq_es hf with h | h
    · rw [(mem_validate_required_sheets_es h).1] at hcol
      exact absurd hcol (by simp)
    rcases mem_seq_es h with h | h
    · have := mem_validate_ip_sheet_es h
      rcases hsheet with hs | hs <;> rw [this] at hs <;> exact absurd hs (by decide)
    rcases mem_seq_es h with h | h
    · unfold validate_radio_4g_sheet at h
      split at h
      · exact absurd h (by simp [PhaseOut.empty])
      · split at h
        · exact absurd h (by simp [PhaseOut.empty])
        · rw [seq_es_of_none rfl] at h
          rcases List.mem_append.mp h with h | h
          · obtain ⟨c2, -, -, rfl⟩ := mem_missingColumnFindings h
            exact absurd hrow (by simp)
          · have := mem_r4Rows_es_no_ip hip h
            rw [this] at hcol
            exact absurd hcol (by simp)
    rcases mem_seq_es h with h | h
    · unfold validate_radio_5g_sheet at h
      split at h
      · exact absurd h (by simp [PhaseOut.empty])
      · split at h
        · exact absurd h (by simp [PhaseOut.empty])
        · have := mem_r5Rows_no_ip hip h
          rw [this] at hcol
          exact absurd hcol (by simp)
    rcases mem_seq_es h with h | h
    · have := mem_validate_mapping_sheet_es h
      rcases hsheet with hs | hs <;> rw [this] at hs <;> exact absurd hs (by decide)
    · have := mem_validate_config_references_es h
      rcases hsheet with hs | hs <;> rw [this] at hs <;> exact absurd hs (by decide)

/-- A TableSet whose 4G and 5G rows name elements absent from the IP sheet. -/
def dataW6 : TableSet :=
  [("IP", ipDfGood),
   ("Radio 4G", r4DfWith "NE_Name" (Cell.str "gXX1")),
   ("Radio 5G", DataFrame.mk ["NE_Name", "nRPCI"]
     [[("NE_Name", Cell.str "gYY2"), ("nRPCI", Cell.int 5)]])]

/-- C6 witness: the amended statement evaluated on `dataW6`, plus the
skip clause applied to the missing-sheet error of an IP-less input. -/
theorem C6_ne_name_referential_witness :
    (validateFindings dataW6 cfgGood).es.filter (rowColPred "Radio 4G" "NE_Name" 2) =
      [mkErr "Radio 4G" (some 2) (some "NE_Name") "NE_Name 'gXX1' not found in IP sheet"] ∧
    (validateFindings dataW6 cfgGood).es.filter (rowColPred "Radio 5G" "NE_Name" 2) =
      [mkErr "Radio 5G" (some 2) (some "NE_Name") "NE_Name 'gYY2' not found in IP sheet"] ∧
    ¬((mkErr "IP" none none "Required sheet 'IP' is missing").column = some "NE_Name" ∧
      ((mkErr "IP" none none "Required sheet 'IP' is missing").sheet = "Radio 4G" ∨
        (mkErr "IP" none none "Required sheet 'IP' is missing").sheet = "Radio 5G") ∧
      ∃ m, (mkErr "IP" none none "Required sheet 'IP' is missing").row = some m) := by
  refine ⟨?_, ?_, ?_⟩
  · have h := (C6_ne_name_referential.1 dataW6 cfgGood
      (r4DfWith "NE_Name" (Cell.str "gXX1")) ipDfGood 0
      (r4RowWith "NE_Name" (Cell.str "gXX1")) "gXX1"
      (by decide) (by decide) (by decide) (by decide) (by decide) (by decide)
      (by decide) (by decide) (by decide))
    simpa using h
  · have h := (C6_ne_name_referential.2.1 dataW6 cfgGood
      (DataFrame.mk ["NE_Name", "nRPCI"]
        [[("NE_Name", Cell.str "gYY2"), ("nRPCI", Cell.int 5)]]) ipDfGood 0
      [("NE_Name", Cell.str "gYY2"), ("nRPCI", Cell.int 5)] "gYY2"
      (by decide) (by decide) (by decide) (by decide) (by decide) (by decide)
      (by decide) (by decide) (by decide))
    simpa using h
  · exact C6_ne_name_referential.2.2 [] cfgGood
      (mkErr "IP" none none "Required sheet 'IP' is missing") (by decide) (by decide)

end SPUTool
